import Mathlib

set_option maxHeartbeats 1000000
set_option maxRecDepth 4000

/-!
Verification of the asynchronous embedding bridge (src/rust/src/async_embed.rs).

The bridge keeps a registry of operations keyed by an `i64` id issued by an
atomic counter, spawns one worker per started operation, and exposes
start/poll/cancel over the registry.  This file is a shallow embedding of the
registry state machine, the worker bodies and the C-boundary marshaling, with
theorems about the behaviour of `poll_async_result`, `cancel_async_operation`,
the `start_*` validation paths and the id generator.

Modelling conventions:
 * the `i64` id counter is modelled exactly, with wrap-around at `2^64`
   (Rust's `AtomicI64::fetch_add` wraps on overflow);
 * the registry `HashMap<i64, AsyncOperation>` is modelled as an association
   list with insert-overwrite semantics; the mutex serialises all registry
   accesses, so system behaviour is a sequence of atomic events (`Event`);
 * the cancellation token is a shared boolean flag; it lives in the record
   (`cancelToken`), and each worker body receives the flag values it observes
   at its two checkpoints as the booleans `tokA`/`tokB`;
 * the external Embedding Engine is an oracle: each worker body takes the
   engine call result as an `Except`/value argument; the first component of a
   worker's output records whether the engine was invoked at all;
 * C pointers that may be null are `Option`; C strings crossing into Rust are
   `CStrArg` (null, invalid UTF-8, or a valid string).
-/

namespace EmbedBridge

/-- Model dtype enum (embed_anything::Dtype, restricted to the two variants the
bridge maps: 0=F32, 1=F16). -/
inductive Dtype
  | f32
  | f16
deriving DecidableEq

/-- Opaque handle for a loaded model (external collaborator value). -/
structure Embedder where
  handle : Nat
deriving DecidableEq

/-- embed_anything::embeddings::embed::EmbeddingResult. -/
inductive EmbeddingResult
  | denseVector (v : List Float)
  | multiVector (m : List (List Float))

/-- embed_anything::embeddings::embed::EmbedData (the fields the bridge reads). -/
structure EmbedData where
  embedding : EmbeddingResult
  text : Option String
  metadata : Option (List (String × String))

/-- AsyncOperationStatus from async_embed.rs. -/
inductive AsyncOperationStatus
  | inProgress
  | success
  | error (msg : String)
  | cancelled
deriving DecidableEq

/-- AsyncResultData from async_embed.rs (the wrapper structs
SingleEmbeddingResult / BatchEmbeddingResult / FileEmbeddingResult /
ModelLoadResult are flattened into the constructor arguments). -/
inductive AsyncResultData
  | singleEmbedding (values : List Float)
  | batchEmbedding (embeddings : List (List Float))
  | fileEmbedding (items : List EmbedData)
  | modelLoad (embedder : Embedder)

/-- AsyncOperation: one registry record.  `cancelToken` is the shared flag of
the record's CancellationToken. -/
structure AsyncOperation where
  status : AsyncOperationStatus
  result : Option AsyncResultData
  cancelToken : Bool

/-- The registry map `HashMap<i64, AsyncOperation>`, as an association list. -/
abbrev Registry := List (Int × AsyncOperation)

/-- HashMap lookup / `get_mut` presence test. -/
def mapLookup (reg : Registry) (opId : Int) : Option AsyncOperation :=
  List.lookup opId reg

/-- HashMap::remove. -/
def eraseKey (opId : Int) (reg : Registry) : Registry :=
  reg.eraseP (fun p => p.1 == opId)

/-- HashMap::insert (overwrites an existing binding of the same key). -/
def mapInsert (opId : Int) (op : AsyncOperation) (reg : Registry) : Registry :=
  (opId, op) :: eraseKey opId reg

/-- In-place mutation through `get_mut`: apply `f` to the record with key
`opId` if present, leave the map unchanged otherwise. -/
def mapMutate (opId : Int) (f : AsyncOperation → AsyncOperation) (reg : Registry) : Registry :=
  reg.map (fun p => if p.1 == opId then (p.1, f p.2) else p)

/-- Whole-bridge state: `count` is the number of `register_operation` calls
performed so far (NEXT_OPERATION_ID starts at 1 and is bumped by each call),
`registry` is ASYNC_OPERATIONS, `lastError` is the LAST_ERROR cell written by
`set_last_error` / cleared by `clear_last_error`. -/
structure BridgeState where
  count : Nat
  registry : Registry
  lastError : Option String

/-- Two's-complement reinterpretation of an integer as an `i64`: reduce
modulo `2^64` into `[0, 2^64)` and shift the upper half down. -/
def wrapI64 (n : Int) : Int :=
  let m := n % (2 : Int) ^ 64
  if m < 2 ^ 63 then m else m - 2 ^ 64

/-- The id returned by the `k`-th (0-based) `fetch_add(1)` on
NEXT_OPERATION_ID, which starts at 1: the `i64` value of `1 + k`.
`fetch_add` is atomic, so concurrent register calls serialise into this
sequence; it wraps on overflow. -/
def issuedId (k : Nat) : Int :=
  wrapI64 (1 + (k : Int))

/-- The record `register_operation` inserts: InProgress, no result, a fresh
(unset) token. -/
def freshOperation : AsyncOperation :=
  { status := .inProgress, result := none, cancelToken := false }

/-- register_operation: allocate the next id, insert a Pending record holding
a fresh token, return the id and the token flag value. -/
def register_operation (s : BridgeState) : (Int × Bool) × BridgeState :=
  let opId := issuedId s.count
  ((opId, false),
    { s with count := s.count + 1, registry := mapInsert opId freshOperation s.registry })

/-- store_success: set status to Success and populate the result, if the
record is still present. -/
def store_success (s : BridgeState) (opId : Int) (r : AsyncResultData) : BridgeState :=
  { s with registry :=
      mapMutate opId (fun op => { op with status := .success, result := some r }) s.registry }

/-- store_error: set status to Error(msg), if the record is still present. -/
def store_error (s : BridgeState) (opId : Int) (msg : String) : BridgeState :=
  { s with registry :=
      mapMutate opId (fun op => { op with status := .error msg }) s.registry }

/-- store_cancelled: set status to Cancelled, if the record is still present. -/
def store_cancelled (s : BridgeState) (opId : Int) : BridgeState :=
  { s with registry :=
      mapMutate opId (fun op => { op with status := .cancelled }) s.registry }

/-- cancel_async_operation: if the record exists set its token's flag and
return 0; otherwise set LAST_ERROR and return -1.  Nothing is removed and no
status/result is written. -/
def cancel_async_operation (s : BridgeState) (opId : Int) : Int × BridgeState :=
  match mapLookup s.registry opId with
  | some _ =>
      (0, { s with registry :=
              mapMutate opId (fun op => { op with cancelToken := true }) s.registry })
  | none =>
      (-1, { s with lastError := some ("Invalid operation ID: " ++ toString opId) })

/-! ## C-boundary marshaling and poll -/

/-- CString::new: fails (the bridge then leaves the pointer null) iff the
string has an interior NUL byte. -/
def cStringNew (s : String) : Option String :=
  if s.data.contains (Char.ofNat 0) then none else some s

/-- Models serde_json::to_string of the combined object
json!("text": text, "metadata": metadata) built by convert_file_result_to_c.
The exact escaping is irrelevant to every property proved here; only that the
field is a deterministic function of `text` and `metadata` matters. -/
def jsonOf (text : Option String) (metadata : Option (List (String × String))) : String :=
  let str : Option String → String := fun o =>
    match o with
    | none => "null"
    | some s => "\"" ++ s ++ "\""
  "\x7b\"text\":" ++ str text ++ ",\"metadata\":" ++
    (match metadata with
     | none => "null"
     | some kvs =>
         "\x7b" ++
           String.intercalate ","
             (kvs.map (fun kv => str (some kv.1) ++ ":" ++ str (some kv.2))) ++
           "\x7d") ++ "\x7d"

/-- CEmbedData as filled by convert_file_result_to_c: the embedding buffer
(pointer plus length, modelled by the list itself and its length) and the
combined text-and-metadata JSON C string (null when CString::new failed). -/
structure CEmbedDataC where
  embeddingValues : List Float
  embeddingLen : Nat
  textAndMetadataJson : Option String

/-- The data payloads a poll result's `data` void pointer can point to
(discriminated by `result_type`): CTextEmbedding, CTextEmbeddingBatch,
CEmbedDataBatch, CEmbedder. -/
inductive CPayload
  | textEmbedding (values : List Float)
  | textEmbeddingBatch (embeddings : List (List Float))
  | embedDataBatch (items : List CEmbedDataC)
  | embedderHandle (e : Embedder)

/-- CAsyncPollResult: status (0=pending, 1=success, -1=error, -2=cancelled),
result_type (0=single, 1=batch, 2=file, 3=model), data pointer (`none` = null)
and error_message pointer (`none` = null). -/
structure CAsyncPollResult where
  status : Int
  resultType : Int
  data : Option CPayload
  errorMessage : Option String

/-- convert_file_result_to_c: convert the stored EmbedData items to
CEmbedData, failing on the first MultiVector item. -/
def convert_file_result_to_c : List EmbedData → Except String (List CEmbedDataC)
  | [] => .ok []
  | d :: rest =>
    match d.embedding with
    | .multiVector _ =>
        .error ("MULTI_VECTOR_NOT_SUPPORTED: Multi-vector embeddings are not supported")
    | .denseVector v =>
        match convert_file_result_to_c rest with
        | .error e => .error e
        | .ok tail =>
            .ok ({ embeddingValues := v, embeddingLen := v.length,
                   textAndMetadataJson := cStringNew (jsonOf d.text d.metadata) } :: tail)

/-- The error message poll stores for an unknown (or already consumed) id. -/
def invalidIdMsg (opId : Int) : String :=
  "Invalid operation ID: " ++ toString opId

/-- poll_async_result: look the id up; Pending leaves everything untouched;
a terminal status marshals the result (taking ownership), removes the record
and returns; an absent id yields status -1 with the invalid-id message. -/
def poll_async_result (s : BridgeState) (opId : Int) : CAsyncPollResult × BridgeState :=
  match mapLookup s.registry opId with
  | none =>
      ({ status := -1, resultType := 0, data := none,
         errorMessage := cStringNew (invalidIdMsg opId) }, s)
  | some op =>
    match op.status with
    | .inProgress =>
        ({ status := 0, resultType := 0, data := none, errorMessage := none }, s)
    | .error msg =>
        ({ status := -1, resultType := 0, data := none, errorMessage := cStringNew msg },
         { s with registry := eraseKey opId s.registry })
    | .cancelled =>
        ({ status := -2, resultType := 0, data := none, errorMessage := none },
         { s with registry := eraseKey opId s.registry })
    | .success =>
      let removed : BridgeState := { s with registry := eraseKey opId s.registry }
      match op.result with
      | none =>
          ({ status := 1, resultType := 0, data := none, errorMessage := none }, removed)
      | some (.singleEmbedding v) =>
          ({ status := 1, resultType := 0, data := some (.textEmbedding v),
             errorMessage := none }, removed)
      | some (.batchEmbedding es) =>
          ({ status := 1, resultType := 1, data := some (.textEmbeddingBatch es),
             errorMessage := none }, removed)
      | some (.fileEmbedding items) =>
          match convert_file_result_to_c items with
          | .ok citems =>
              ({ status := 1, resultType := 2, data := some (.embedDataBatch citems),
                 errorMessage := none }, removed)
          | .error e =>
              ({ status := -1, resultType := 2, data := none,
                 errorMessage := cStringNew e }, removed)
      | some (.modelLoad e) =>
          ({ status := 1, resultType := 3, data := some (.embedderHandle e),
             errorMessage := none }, removed)

/-! ## Worker bodies

Each `start_*` spawns one thread whose body is modelled as a pure function of:
the arguments captured by the closure, the cancellation-token values observed
at checkpoint A (before the engine call) and checkpoint B (after it), and the
engine call's outcome.  The returned pair is (engine was invoked, the terminal
store the worker performs on its record). -/

/-- Rust str::to_lowercase, modelled characterwise (String.toLower's
per-character mapping, written structurally so that it evaluates). -/
def strToLower (s : String) : String := ⟨s.data.map Char.toLower⟩

/-- Substring test on character lists: `needle` is a prefix of some suffix. -/
def listContainsSub (needle : List Char) : List Char → Bool
  | [] => needle.isEmpty
  | c :: rest => needle.isPrefixOf (c :: rest) || listContainsSub needle rest

/-- Rust `str::contains` (substring test). -/
def strContainsSub (hay needle : String) : Bool :=
  listContainsSub needle.data hay.data

/-- A single-quote character, used in the load-model failure message. -/
def quoteChar : String :=
  String.singleton (Char.ofNat 39)

/-- The terminal write a worker performs on its registry record. -/
inductive StoreAction
  | storeSuccess (r : AsyncResultData)
  | storeError (msg : String)
  | storeCancelled

/-- Worker thread body of start_load_model. -/
def loadModelWorker (modelIdStr : String) (tokA tokB : Bool)
    (engine : Except String Embedder) : Bool × StoreAction :=
  if tokA then (false, .storeCancelled)
  else if tokB then (true, .storeCancelled)
  else
    match engine with
    | .ok embedder => (true, .storeSuccess (.modelLoad embedder))
    | .error e =>
        if strContainsSub (strToLower e) ("404") then
          (true, .storeError ("MODEL_NOT_FOUND: " ++ modelIdStr))
        else
          (true, .storeError ("EMBEDDING_FAILED: Failed to load model " ++ quoteChar ++
            modelIdStr ++ quoteChar ++ ": " ++ e))

/-- Worker thread body of start_embed_text (engine call: embed_query). -/
def embedTextWorker (tokA tokB : Bool)
    (engine : Except String (List EmbedData)) : Bool × StoreAction :=
  if tokA then (false, .storeCancelled)
  else if tokB then (true, .storeCancelled)
  else
    match engine with
    | .ok embedDataVec =>
      match embedDataVec with
      | [] => (true, .storeError ("EMBEDDING_FAILED: embed_query returned empty result"))
      | embedData :: _ =>
        match embedData.embedding with
        | .denseVector v =>
            if v.isEmpty then
              (true, .storeError ("EMBEDDING_FAILED: Generated embedding vector is empty"))
            else (true, .storeSuccess (.singleEmbedding v))
        | .multiVector _ =>
            (true, .storeError ("MULTI_VECTOR: Multi-vector embeddings are not supported"))
    | .error e =>
        (true, .storeError ("EMBEDDING_FAILED: Text embedding generation failed: " ++ e))

/-- The accumulation loop of the batch worker over the engine's results:
succeed with the dense vectors in order, or fail at the first empty dense
vector or MultiVector. -/
def collectBatch : List EmbeddingResult → Except String (List (List Float))
  | [] => .ok []
  | .denseVector v :: rest =>
      if v.isEmpty then
        .error ("EMBEDDING_FAILED: Generated embedding vector is empty")
      else
        match collectBatch rest with
        | .error m => .error m
        | .ok tail => .ok (v :: tail)
  | .multiVector _ :: _ =>
      .error ("MULTI_VECTOR: Multi-vector embeddings are not supported")

/-- Worker thread body of start_embed_texts_batch (engine call: embed);
`count` is the validated batch size captured by the closure. -/
def embedBatchWorker (count : Nat) (tokA tokB : Bool)
    (engine : Except String (List EmbeddingResult)) : Bool × StoreAction :=
  if tokA then (false, .storeCancelled)
  else if tokB then (true, .storeCancelled)
  else
    match engine with
    | .ok embeddingResults =>
      match collectBatch embeddingResults with
      | .ok embeddings => (true, .storeSuccess (.batchEmbedding embeddings))
      | .error m => (true, .storeError m)
    | .error e =>
        (true, .storeError ("EMBEDDING_FAILED: Batch embedding generation failed for " ++
          toString count ++ " texts: " ++ e))

/-- Worker thread body of start_embed_file (engine call: embed_file). -/
def embedFileWorker (filePathStr : String) (tokA tokB : Bool)
    (engine : Except String (Option (List EmbedData))) : Bool × StoreAction :=
  if tokA then (false, .storeCancelled)
  else if tokB then (true, .storeCancelled)
  else
    match engine with
    | .ok (some embedDataVec) => (true, .storeSuccess (.fileEmbedding embedDataVec))
    | .ok none => (true, .storeError ("EMBEDDING_FAILED: embed_file returned None"))
    | .error e =>
        if strContainsSub (strToLower e) ("not found") || strContainsSub (strToLower e) ("no such file") then
          (true, .storeError ("FILE_NOT_FOUND: " ++ filePathStr))
        else if strContainsSub (strToLower e) ("unsupported") || strContainsSub (strToLower e) ("format") then
          (true, .storeError ("UNSUPPORTED_FORMAT: " ++ filePathStr))
        else if strContainsSub (strToLower e) ("permission") ||
            strContainsSub (strToLower e) ("access denied") then
          (true, .storeError ("FILE_READ_ERROR: " ++ e))
        else
          (true, .storeError ("EMBEDDING_FAILED: " ++ e))

/-- Worker thread body of start_embed_directory (engine call:
embed_directory_stream). -/
def embedDirectoryWorker (dirPathStr : String) (tokA tokB : Bool)
    (engine : Except String (Option (List EmbedData))) : Bool × StoreAction :=
  if tokA then (false, .storeCancelled)
  else if tokB then (true, .storeCancelled)
  else
    match engine with
    | .ok (some embedDataVec) => (true, .storeSuccess (.fileEmbedding embedDataVec))
    | .ok none =>
        (true, .storeError ("EMBEDDING_FAILED: embed_directory_stream returned None"))
    | .error e =>
        if strContainsSub (strToLower e) ("not found") || strContainsSub (strToLower e) ("no such file") then
          (true, .storeError ("FILE_NOT_FOUND: " ++ dirPathStr))
        else if strContainsSub (strToLower e) ("permission") ||
            strContainsSub (strToLower e) ("access denied") then
          (true, .storeError ("FILE_READ_ERROR: " ++ e))
        else
          (true, .storeError ("EMBEDDING_FAILED: Directory embedding failed - " ++ e))

/-- One worker invocation, across all five operation kinds: the captured
arguments, the token values at the two checkpoints, and the engine outcome. -/
inductive WorkerCall
  | loadModel (modelIdStr : String) (tokA tokB : Bool) (engine : Except String Embedder)
  | embedText (tokA tokB : Bool) (engine : Except String (List EmbedData))
  | embedBatch (count : Nat) (tokA tokB : Bool)
      (engine : Except String (List EmbeddingResult))
  | embedFile (filePathStr : String) (tokA tokB : Bool)
      (engine : Except String (Option (List EmbedData)))
  | embedDirectory (dirPathStr : String) (tokA tokB : Bool)
      (engine : Except String (Option (List EmbedData)))

/-- The token value the worker observes at checkpoint A, before any engine
call. -/
def WorkerCall.tokenAtStart : WorkerCall → Bool
  | .loadModel _ tokA _ _ => tokA
  | .embedText tokA _ _ => tokA
  | .embedBatch _ tokA _ _ => tokA
  | .embedFile _ tokA _ _ => tokA
  | .embedDirectory _ tokA _ _ => tokA

/-- Dispatch a worker invocation to the matching worker body. -/
def runWorker : WorkerCall → Bool × StoreAction
  | .loadModel mid tokA tokB engine => loadModelWorker mid tokA tokB engine
  | .embedText tokA tokB engine => embedTextWorker tokA tokB engine
  | .embedBatch n tokA tokB engine => embedBatchWorker n tokA tokB engine
  | .embedFile fp tokA tokB engine => embedFileWorker fp tokA tokB engine
  | .embedDirectory dp tokA tokB engine => embedDirectoryWorker dp tokA tokB engine

/-! ## The serialised event machine

Every registry access in the source is guarded by the single
ASYNC_OPERATIONS mutex, so any concurrent execution is equivalent to some
interleaving of these atomic events. -/

/-- One atomic registry transaction. -/
inductive Event
  | register
  | storeSuccessEv (opId : Int) (r : AsyncResultData)
  | storeErrorEv (opId : Int) (msg : String)
  | storeCancelledEv (opId : Int)
  | cancelEv (opId : Int)
  | pollEv (opId : Int)

/-- State transition of one event. -/
def applyEvent (s : BridgeState) : Event → BridgeState
  | .register => (register_operation s).2
  | .storeSuccessEv opId r => store_success s opId r
  | .storeErrorEv opId msg => store_error s opId msg
  | .storeCancelledEv opId => store_cancelled s opId
  | .cancelEv opId => (cancel_async_operation s opId).2
  | .pollEv opId => (poll_async_result s opId).2

/-- Run a sequence of events. -/
def applyEvents (es : List Event) (s : BridgeState) : BridgeState :=
  es.foldl applyEvent s

/-- How many `register` events a sequence contains. -/
def countRegisters : List Event → Nat
  | [] => 0
  | .register :: rest => countRegisters rest + 1
  | _ :: rest => countRegisters rest

/-! ## start_* entry points: synchronous validation, register, spawn -/

/-- A `*const c_char` argument as seen from Rust: null, non-null but invalid
UTF-8, or a valid string. -/
inductive CStrArg
  | nullPtr
  | invalidUtf8
  | valid (s : String)
deriving DecidableEq

/-- CTextEmbedConfig (the f32 overlap_ratio field is carried opaquely). -/
structure CTextEmbedConfigM where
  chunkSize : Nat
  overlapFraction : Float
  batchSize : Nat
  bufferSize : Nat

/-- Description of the worker thread a successful `start_*` spawns: the
operation id it will write to and the arguments its closure captured. -/
inductive SpawnedWorker
  | loadModel (opId : Int) (modelIdStr : String) (revision : Option String)
      (dtype : Option Dtype)
  | embedText (opId : Int) (textStr : String)
  | embedBatch (opId : Int) (texts : List String)
  | embedFile (opId : Int) (filePathStr : String) (config : CTextEmbedConfigM)
  | embedDirectory (opId : Int) (dirPathStr : String)
      (extensions : Option (List String)) (config : CTextEmbedConfigM)

/-- Result of a `start_*` call: the returned i64 (operation id or the -1
failure sentinel), the bridge state afterwards, and the spawned worker
(if any). -/
structure StartOutcome where
  ret : Int
  state : BridgeState
  spawned : Option SpawnedWorker

/-- Registration and spawn tail of start_load_model. -/
def startLoadRegister (s : BridgeState) (modelIdStr : String)
    (revisionOpt : Option String) (dtypeOpt : Option Dtype) : StartOutcome :=
  let r := register_operation s
  { ret := r.1.1, state := r.2,
    spawned := some (.loadModel r.1.1 modelIdStr revisionOpt dtypeOpt) }

/-- The dtype mapping and registration tail of start_load_model (dtype codes:
0=F32, 1=F16, -1=default, anything else is a validation failure). -/
def startLoadDtype (s : BridgeState) (modelIdStr : String) (revisionOpt : Option String)
    (dtype : Int) : StartOutcome :=
  if dtype = 0 then startLoadRegister s modelIdStr revisionOpt (some .f32)
  else if dtype = 1 then startLoadRegister s modelIdStr revisionOpt (some .f16)
  else if dtype = -1 then startLoadRegister s modelIdStr revisionOpt none
  else
    let m := "INVALID_CONFIG: dtype: invalid value " ++ toString dtype
    { ret := -1, state := { s with lastError := some m }, spawned := none }

/-- start_load_model: validate model_id (null / UTF-8), revision (UTF-8 when
non-null) and the dtype code (0 / 1 / -1) before registering anything. -/
def start_load_model (s0 : BridgeState) (modelId revision : CStrArg)
    (dtype : Int) : StartOutcome :=
  let s : BridgeState := { s0 with lastError := none }
  let fail : String → StartOutcome := fun m =>
    { ret := -1, state := { s with lastError := some m }, spawned := none }
  match modelId with
  | .nullPtr => fail ("INVALID_CONFIG: model_id: cannot be null")
  | .invalidUtf8 => fail ("INVALID_CONFIG: model_id: invalid UTF-8 encoding")
  | .valid modelIdStr =>
    match revision with
    | .invalidUtf8 => fail ("INVALID_CONFIG: revision: invalid UTF-8 encoding")
    | .nullPtr => startLoadDtype s modelIdStr none dtype
    | .valid r => startLoadDtype s modelIdStr (some r) dtype

/-- start_embed_text: validate the embedder pointer and the text argument
before registering anything. -/
def start_embed_text (s0 : BridgeState) (embedder : Option Embedder)
    (text : CStrArg) : StartOutcome :=
  let s : BridgeState := { s0 with lastError := none }
  let fail : String → StartOutcome := fun m =>
    { ret := -1, state := { s with lastError := some m }, spawned := none }
  match embedder, text with
  | none, _ => fail ("FFI_ERROR: embedder pointer is null")
  | some _, .nullPtr => fail ("INVALID_CONFIG: text: cannot be null")
  | some _, .invalidUtf8 => fail ("INVALID_CONFIG: text: invalid UTF-8 encoding")
  | some _, .valid textStr =>
    let r := register_operation s
    { ret := r.1.1, state := r.2, spawned := some (.embedText r.1.1 textStr) }

/-- The element loop of start_embed_texts_batch: fail on the first null or
invalid-UTF-8 element, otherwise collect the strings in order. -/
def parseTexts : List CStrArg → Except String (List String)
  | [] => .ok []
  | .nullPtr :: _ => .error ("INVALID_CONFIG: texts: array contains null pointer")
  | .invalidUtf8 :: _ => .error ("INVALID_CONFIG: texts: array contains invalid UTF-8")
  | .valid t :: rest =>
      match parseTexts rest with
      | .error m => .error m
      | .ok tail => .ok (t :: tail)

/-- start_embed_texts_batch: validate the embedder pointer, the array pointer,
`count = 0`, and every element, before registering anything.  `texts = none`
models a null array pointer; the list length is the `count` argument. -/
def start_embed_texts_batch (s0 : BridgeState) (embedder : Option Embedder)
    (texts : Option (List CStrArg)) : StartOutcome :=
  let s : BridgeState := { s0 with lastError := none }
  let fail : String → StartOutcome := fun m =>
    { ret := -1, state := { s with lastError := some m }, spawned := none }
  match embedder, texts with
  | none, _ => fail ("FFI_ERROR: embedder pointer is null")
  | some _, none => fail ("INVALID_CONFIG: texts: cannot be null")
  | some _, some arr =>
    if arr.length = 0 then fail ("INVALID_CONFIG: count: must be greater than 0")
    else
      match parseTexts arr with
      | .error m => fail m
      | .ok textStrings =>
          let r := register_operation s
          { ret := r.1.1, state := r.2, spawned := some (.embedBatch r.1.1 textStrings) }

/-- start_embed_file: validate the three pointers, the path's UTF-8, and the
path's existence (`pathExists` is the filesystem oracle) before registering
anything. -/
def start_embed_file (s0 : BridgeState) (embedder : Option Embedder)
    (filePath : CStrArg) (config : Option CTextEmbedConfigM)
    (pathExists : Bool) : StartOutcome :=
  let s : BridgeState := { s0 with lastError := none }
  let fail : String → StartOutcome := fun m =>
    { ret := -1, state := { s with lastError := some m }, spawned := none }
  match embedder, filePath, config with
  | none, _, _ => fail ("FFI_ERROR: embedder pointer is null")
  | some _, .nullPtr, _ => fail ("INVALID_CONFIG: file_path: cannot be null")
  | some _, _, none => fail ("INVALID_CONFIG: config: cannot be null")
  | some _, .invalidUtf8, some _ => fail ("INVALID_CONFIG: file_path: invalid UTF-8 encoding")
  | some _, .valid filePathStr, some cfg =>
    if pathExists then
      let r := register_operation s
      { ret := r.1.1, state := r.2, spawned := some (.embedFile r.1.1 filePathStr cfg) }
    else fail ("FILE_NOT_FOUND: " ++ filePathStr)

/-- The extension-array loop of start_embed_directory. -/
def parseExtensions : List CStrArg → Except String (List String)
  | [] => .ok []
  | .nullPtr :: _ => .error ("INVALID_CONFIG: extensions: array contains null pointer")
  | .invalidUtf8 :: _ => .error ("INVALID_CONFIG: extensions: invalid UTF-8")
  | .valid t :: rest =>
      match parseExtensions rest with
      | .error m => .error m
      | .ok tail => .ok (t :: tail)

/-- start_embed_directory: validate the pointers, the path's UTF-8 and
existence, and the extension array, before registering anything.
`extensions = none` models a null array pointer (allowed: embeds all files);
an empty list likewise maps to no filter. -/
def start_embed_directory (s0 : BridgeState) (embedder : Option Embedder)
    (directoryPath : CStrArg) (extensions : Option (List CStrArg))
    (config : Option CTextEmbedConfigM) (pathExists : Bool) : StartOutcome :=
  let s : BridgeState := { s0 with lastError := none }
  let fail : String → StartOutcome := fun m =>
    { ret := -1, state := { s with lastError := some m }, spawned := none }
  match embedder, directoryPath, config with
  | none, _, _ => fail ("FFI_ERROR: embedder pointer is null")
  | some _, .nullPtr, _ => fail ("INVALID_CONFIG: directory_path: cannot be null")
  | some _, _, none => fail ("INVALID_CONFIG: config: cannot be null")
  | some _, .invalidUtf8, some _ =>
      fail ("INVALID_CONFIG: directory_path: invalid UTF-8 encoding")
  | some _, .valid dirPathStr, some cfg =>
    if pathExists then
      match extensions with
      | none =>
          let r := register_operation s
          { ret := r.1.1, state := r.2,
            spawned := some (.embedDirectory r.1.1 dirPathStr none cfg) }
      | some arr =>
        if arr.length = 0 then
          let r := register_operation s
          { ret := r.1.1, state := r.2,
            spawned := some (.embedDirectory r.1.1 dirPathStr none cfg) }
        else
          match parseExtensions arr with
          | .error m => fail m
          | .ok extVec =>
              let r := register_operation s
              { ret := r.1.1, state := r.2,
                spawned := some (.embedDirectory r.1.1 dirPathStr (some extVec) cfg) }
    else fail ("FILE_NOT_FOUND: " ++ dirPathStr)

/-! ## The failure-classification taxonomy (spec section 4.5) -/

/-- The spec's closed failure taxonomy. -/
inductive Classification
  | notFound
  | unsupportedInput
  | readFailure
  | genericFailure
deriving DecidableEq

/-- Prefix test on strings. -/
def strStartsWith (m tag : String) : Bool :=
  tag.data.isPrefixOf m.data

/-- The classification a stored message encodes through its tag prefix
(spec 4.5: the tag prefixed to the stored message is the only structured
failure signal).  Tags: MODEL_NOT_FOUND / FILE_NOT_FOUND are the not-found
class, UNSUPPORTED_FORMAT and MULTI_VECTOR* the unsupported-input class,
FILE_READ_ERROR the read-failure class, EMBEDDING_FAILED the generic class. -/
def classOfMsg (m : String) : Option Classification :=
  if strStartsWith m ("MODEL_NOT_FOUND") then some .notFound
  else if strStartsWith m ("FILE_NOT_FOUND") then some .notFound
  else if strStartsWith m ("UNSUPPORTED_FORMAT") then some .unsupportedInput
  else if strStartsWith m ("MULTI_VECTOR") then some .unsupportedInput
  else if strStartsWith m ("FILE_READ_ERROR") then some .readFailure
  else if strStartsWith m ("EMBEDDING_FAILED") then some .genericFailure
  else none

/-- Modelled from the spec: the claimed single classification rule, common to
every operation kind — error text containing "404" is not-found, text
containing "permission" is read-failure, anything else is generic-failure
(matching on the lower-cased engine error text). -/
def specClassify (e : String) : Classification :=
  if strContainsSub (strToLower e) ("404") then .notFound
  else if strContainsSub (strToLower e) ("permission") then .readFailure
  else .genericFailure

/-- The per-kind rule actually applied by the embed-file worker, stated at
taxonomy level. -/
def fileFailureClass (e : String) : Classification :=
  if strContainsSub (strToLower e) ("not found") || strContainsSub (strToLower e) ("no such file") then
    .notFound
  else if strContainsSub (strToLower e) ("unsupported") || strContainsSub (strToLower e) ("format") then
    .unsupportedInput
  else if strContainsSub (strToLower e) ("permission") ||
      strContainsSub (strToLower e) ("access denied") then
    .readFailure
  else .genericFailure

/-- The per-kind rule actually applied by the embed-directory worker, stated
at taxonomy level. -/
def directoryFailureClass (e : String) : Classification :=
  if strContainsSub (strToLower e) ("not found") || strContainsSub (strToLower e) ("no such file") then
    .notFound
  else if strContainsSub (strToLower e) ("permission") ||
      strContainsSub (strToLower e) ("access denied") then
    .readFailure
  else .genericFailure

/-- The per-kind rule actually applied by the load-model worker, stated at
taxonomy level. -/
def loadModelFailureClass (e : String) : Classification :=
  if strContainsSub (strToLower e) ("404") then .notFound else .genericFailure

/-! ## Derived notions used by the statements -/

/-- No pair of the registry has key `k`. -/
def keysFree (k : Int) (reg : Registry) : Prop := ∀ p ∈ reg, p.1 ≠ k

/-- The registry keys are pairwise distinct. -/
def NodupKeys (reg : Registry) : Prop := (reg.map Prod.fst).Nodup

/-- Invariant of every reachable bridge state: registry keys are distinct and
each one was issued by an earlier register call. -/
def RegInv (s : BridgeState) : Prop :=
  NodupKeys s.registry ∧ ∀ p ∈ s.registry, ∃ j, j < s.count ∧ issuedId j = p.1

/-- The state after polling the same id `n` times in a row. -/
def pollRepeat (n : Nat) (s : BridgeState) (opId : Int) : BridgeState :=
  match n with
  | 0 => s
  | m + 1 => pollRepeat m (poll_async_result s opId).2 opId

/-- The poll outcome for an id with no registry record. -/
def invalidIdResult (opId : Int) : CAsyncPollResult :=
  { status := -1, resultType := 0, data := none,
    errorMessage := cStringNew (invalidIdMsg opId) }

/-- The poll outcome while an operation is still in progress. -/
def pendingPollResult : CAsyncPollResult :=
  { status := 0, resultType := 0, data := none, errorMessage := none }

/-- What a failed `start_*` validation must leave behind: the -1 sentinel, the
registry exactly as it was (same map and same id counter), and no spawned
worker. -/
def startFrameOk (s : BridgeState) (o : StartOutcome) : Prop :=
  o.ret = -1 ∧ o.state.registry = s.registry ∧ o.state.count = s.count ∧ o.spawned = none

/-- The bridge state at process start: counter at 1 (no register call yet),
empty registry. -/
def initialState : BridgeState := { count := 0, registry := [], lastError := none }

/-- Payload of the first operation in the id-reuse trace. -/
def c1Payload1 : AsyncResultData := .singleEmbedding [1.0]

/-- Payload of the much later operation that receives the reissued id 1. -/
def c1Payload2 : AsyncResultData := .singleEmbedding [2.0]

/-- Start one operation (which gets id 1), let its worker store success, and
poll it: the first terminal poll on id 1. -/
def c1FirstPoll : CAsyncPollResult × BridgeState :=
  poll_async_result (applyEvents [.register, .storeSuccessEv 1 c1Payload1] initialState) 1

/-- After the first terminal poll consumed id 1, perform `2^64 - 1` further
register calls: the `i64` counter is one step away from issuing 1 again. -/
def c1Drained : BridgeState :=
  applyEvents (List.replicate (2 ^ 64 - 1) .register) c1FirstPoll.2

/-- One more register call: its `fetch_add` wraps and the new operation is
registered under id 1 again. -/
def c1Reissued : BridgeState := applyEvent c1Drained .register

/-- The new operation's worker stores its own success payload under id 1. -/
def c1Completed : BridgeState := applyEvent c1Reissued (.storeSuccessEv 1 c1Payload2)

/-- A second poll on id 1 — after id 1 already yielded a terminal outcome. -/
def c1SecondPoll : CAsyncPollResult × BridgeState := poll_async_result c1Completed 1

/-! ## Registry lemmas -/

theorem mapLookup_cons (k a : Int) (b : AsyncOperation) (l : Registry) :
    mapLookup ((a, b) :: l) k = if k = a then some b else mapLookup l k := by
  by_cases h : k = a
  · simp [mapLookup, List.lookup_cons, h]
  · simp [mapLookup, List.lookup_cons, h, beq_false_of_ne h]

theorem mapMutate_cons (opId : Int) (f : AsyncOperation → AsyncOperation)
    (a : Int) (b : AsyncOperation) (l : Registry) :
    mapMutate opId f ((a, b) :: l) =
      (if a = opId then (a, f b) else (a, b)) :: mapMutate opId f l := by
  by_cases h : a = opId
  · simp [mapMutate, h]
  · simp [mapMutate, h, beq_false_of_ne h]

theorem eraseKey_cons (opId a : Int) (b : AsyncOperation) (l : Registry) :
    eraseKey opId ((a, b) :: l) = if a = opId then l else (a, b) :: eraseKey opId l := by
  by_cases h : a = opId
  · simp [eraseKey, List.eraseP_cons, h]
  · simp [eraseKey, List.eraseP_cons, h, beq_false_of_ne h]

theorem mapLookup_mapMutate (reg : Registry) (opId k : Int)
    (f : AsyncOperation → AsyncOperation) :
    mapLookup (mapMutate opId f reg) k =
      (mapLookup reg k).map (fun op => if k = opId then f op else op) := by
  induction reg with
  | nil => rfl
  | cons p rest ih =>
    obtain ⟨a, b⟩ := p
    rw [mapMutate_cons]
    by_cases hai : a = opId <;> by_cases hak : k = a <;>
      simp_all [mapLookup_cons]

theorem mapLookup_eraseKey_ne (reg : Registry) (opId k : Int) (h : k ≠ opId) :
    mapLookup (eraseKey opId reg) k = mapLookup reg k := by
  induction reg with
  | nil => rfl
  | cons p rest ih =>
    obtain ⟨a, b⟩ := p
    rw [eraseKey_cons]
    by_cases hai : a = opId
    · subst hai
      rw [if_pos rfl, mapLookup_cons, if_neg h]
    · rw [if_neg hai, mapLookup_cons, mapLookup_cons, ih]

theorem mapLookup_eq_none_iff (reg : Registry) (k : Int) :
    mapLookup reg k = none ↔ keysFree k reg := by
  induction reg with
  | nil => simp [mapLookup, keysFree]
  | cons p rest ih =>
    obtain ⟨a, b⟩ := p
    rw [mapLookup_cons]
    by_cases h : k = a
    · subst h
      rw [if_pos rfl]
      constructor
      · intro hc; exact (Option.some_ne_none b hc).elim
      · intro hf; exact absurd rfl (hf (k, b) (List.mem_cons_self _ _))
    · rw [if_neg h, ih]
      constructor
      · intro hf q hq
        rcases List.mem_cons.mp hq with hq1 | hq2
        · subst hq1; exact fun hh => h (hh.symm)
        · exact hf q hq2
      · intro hf q hq
        exact hf q (List.mem_cons_of_mem _ hq)

theorem mapLookup_eraseKey_self (reg : Registry) (opId : Int) (h : NodupKeys reg) :
    mapLookup (eraseKey opId reg) opId = none := by
  induction reg with
  | nil => rfl
  | cons p rest ih =>
    obtain ⟨a, b⟩ := p
    simp only [NodupKeys, List.map_cons, List.nodup_cons] at h
    rw [eraseKey_cons]
    by_cases hai : a = opId
    · subst hai
      rw [if_pos rfl, mapLookup_eq_none_iff]
      intro q hq hq1
      exact h.1 (hq1 ▸ List.mem_map_of_mem Prod.fst hq)
    · rw [if_neg hai, mapLookup_cons, if_neg (fun hh : opId = a => hai hh.symm)]
      exact ih h.2

theorem keysFree_eraseKey (reg : Registry) (opId k : Int) (h : keysFree k reg) :
    keysFree k (eraseKey opId reg) := by
  intro p hp
  exact h p ((List.eraseP_sublist reg).subset hp)

theorem keysFree_mapMutate (reg : Registry) (opId k : Int)
    (f : AsyncOperation → AsyncOperation) (h : keysFree k reg) :
    keysFree k (mapMutate opId f reg) := by
  intro p hp
  rcases List.mem_map.mp hp with ⟨q, hq, hqe⟩
  have h1 : p.1 = q.1 := by
    subst hqe
    by_cases hb : q.1 = opId
    · simp [hb, beq_self_eq_true]
    · simp [beq_false_of_ne hb]
  rw [h1]
  exact h q hq

/-! ## Arithmetic of the wrapping id counter -/

theorem wrapI64_emod (n : Int) : wrapI64 n % 2 ^ 64 = n % 2 ^ 64 := by
  unfold wrapI64
  by_cases h : n % (2 : Int) ^ 64 < 2 ^ 63
  · simp only [h, if_pos]
    conv_rhs => rw [← Int.emod_emod_of_dvd n (dvd_refl ((2 : Int) ^ 64))]
  · simp only [h, if_neg, ite_false]
    rw [Int.sub_emod, Int.emod_self]
    conv_rhs => rw [← Int.emod_emod_of_dvd n (dvd_refl ((2 : Int) ^ 64))]
    omega

theorem issuedId_small (k : Nat) (h : (k : Int) + 1 < 2 ^ 63) :
    issuedId k = (k : Int) + 1 := by
  unfold issuedId wrapI64
  have h1 : (1 + (k : Int)) % (2 : Int) ^ 64 = 1 + (k : Int) := by
    apply Int.emod_eq_of_lt <;> omega
  rw [h1]
  rw [if_pos (by omega)]
  omega

/-- Within one period of the `i64` counter the issued ids are pairwise
distinct. -/
theorem issuedId_inj_lt (j k : Nat) (hjk : j < k) (hk : k < 2 ^ 64) :
    issuedId j ≠ issuedId k := by
  intro h
  have hmod := congrArg (fun z => z % (2 : Int) ^ 64) h
  simp only [issuedId, wrapI64_emod] at hmod
  have hj1 : (1 + (j : Int)) % (2 : Int) ^ 64 = 1 + (j : Int) := by
    apply Int.emod_eq_of_lt <;> omega
  rw [hj1] at hmod
  by_cases hke : (k : Int) + 1 = 2 ^ 64
  · have h0 : (1 + (k : Int)) % (2 : Int) ^ 64 = 0 := by
      rw [show (1 + (k : Int)) = 2 ^ 64 by omega]
      exact Int.emod_self
    omega
  · have hk1 : (1 + (k : Int)) % (2 : Int) ^ 64 = 1 + (k : Int) := by
      apply Int.emod_eq_of_lt <;> omega
    omega

/-! ## NUL-freeness of formatted numbers (CString::new never fails on the
invalid-id message) -/

theorem digitChar_ne_nul (m : Nat) (h : m < 10) : Nat.digitChar m ≠ Char.ofNat 0 := by
  interval_cases m <;> decide

theorem toDigitsCore_ne_nul (fuel : Nat) :
    ∀ (n : Nat) (acc : List Char),
      (∀ c ∈ acc, c ≠ Char.ofNat 0) →
      ∀ c ∈ Nat.toDigitsCore 10 fuel n acc, c ≠ Char.ofNat 0 := by
  induction fuel with
  | zero =>
    intro n acc hacc c hc
    exact hacc c hc
  | succ f ih =>
    intro n acc hacc c hc
    rw [Nat.toDigitsCore] at hc
    by_cases hz : n / 10 = 0
    · rw [if_pos hz] at hc
      rcases List.mem_cons.mp hc with h1 | h2
      · rw [h1]; exact digitChar_ne_nul _ (Nat.mod_lt _ (by norm_num))
      · exact hacc c h2
    · rw [if_neg hz] at hc
      refine ih (n / 10) (Nat.digitChar (n % 10) :: acc) ?_ c hc
      intro d hd
      rcases List.mem_cons.mp hd with h1 | h2
      · rw [h1]; exact digitChar_ne_nul _ (Nat.mod_lt _ (by norm_num))
      · exact hacc d h2

theorem natRepr_ne_nul (n : Nat) : ∀ c ∈ (Nat.repr n).data, c ≠ Char.ofNat 0 := by
  intro c hc
  have hrw : (Nat.repr n).data = Nat.toDigitsCore 10 (n + 1) n [] := rfl
  rw [hrw] at hc
  exact toDigitsCore_ne_nul (n + 1) n [] (by intro d hd; cases hd) c hc

theorem intToString_ne_nul (i : Int) : ∀ c ∈ (toString i).data, c ≠ Char.ofNat 0 := by
  intro c hc
  cases i with
  | ofNat m => exact natRepr_ne_nul m c hc
  | negSucc m =>
    have hrw : (toString (Int.negSucc m)).data = '-' :: (Nat.repr (m + 1)).data := rfl
    rw [hrw] at hc
    rcases List.mem_cons.mp hc with h1 | h2
    · rw [h1]; decide
    · exact natRepr_ne_nul (m + 1) c h2

/-- The invalid-id message never has an interior NUL, so the C string is
always allocated. -/
theorem cStringNew_invalidIdMsg (opId : Int) :
    cStringNew (invalidIdMsg opId) = some (invalidIdMsg opId) := by
  unfold cStringNew invalidIdMsg
  rw [if_neg]
  intro hcon
  rw [String.data_append] at hcon
  rw [List.contains_eq_any_beq] at hcon
  simp only [List.any_append, Bool.or_eq_true, List.any_eq_true, beq_iff_eq] at hcon
  rcases hcon with ⟨c, hc, hce⟩ | ⟨c, hc, hce⟩
  · subst hce
    revert hc
    decide
  · subst hce
    exact intToString_ne_nul opId _ hc rfl

/-! ## Frame lemmas for poll and cancel, and event-trace preservation -/

theorem poll_state_cases (s : BridgeState) (opId : Int) :
    (poll_async_result s opId).2 = s ∨
    (poll_async_result s opId).2 = { s with registry := eraseKey opId s.registry } := by
  unfold poll_async_result
  rcases hl : mapLookup s.registry opId with _ | op
  · left; rfl
  · obtain ⟨st, res, tok⟩ := op
    cases st with
    | inProgress => left; rfl
    | error msg => right; rfl
    | cancelled => right; rfl
    | success =>
      cases res with
      | none => right; rfl
      | some r =>
        cases r with
        | singleEmbedding v => right; rfl
        | batchEmbedding es => right; rfl
        | modelLoad e => right; rfl
        | fileEmbedding items =>
          rcases hc : convert_file_result_to_c items with e | c <;> simp [hc]

theorem poll_count_eq (s : BridgeState) (opId : Int) :
    (poll_async_result s opId).2.count = s.count := by
  rcases poll_state_cases s opId with h | h <;> rw [h]

theorem cancel_state_cases (s : BridgeState) (opId : Int) :
    (cancel_async_operation s opId).2.registry = s.registry ∨
    (cancel_async_operation s opId).2.registry =
      mapMutate opId (fun op => { op with cancelToken := true }) s.registry := by
  unfold cancel_async_operation
  rcases hl : mapLookup s.registry opId with _ | op
  · left; rfl
  · right; rfl

theorem cancel_count_eq (s : BridgeState) (opId : Int) :
    (cancel_async_operation s opId).2.count = s.count := by
  unfold cancel_async_operation
  rcases hl : mapLookup s.registry opId with _ | op
  · rfl
  · rfl

theorem countRegisters_cons_register (rest : List Event) :
    countRegisters (Event.register :: rest) = countRegisters rest + 1 := rfl

theorem applyEvents_cons (e : Event) (rest : List Event) (s : BridgeState) :
    applyEvents (e :: rest) s = applyEvents rest (applyEvent s e) := rfl

theorem applyEvents_append (es fs : List Event) (s : BridgeState) :
    applyEvents (es ++ fs) s = applyEvents fs (applyEvents es s) := by
  simp [applyEvents, List.foldl_append]

theorem applyEvent_register_registry (s : BridgeState) :
    (applyEvent s .register).registry =
      mapInsert (issuedId s.count) freshOperation s.registry := rfl

/-- Once an id is absent from the registry, it stays absent along any event
trace, as long as the total number of register calls performed over the whole
process stays within one period of the `i64` counter. -/
theorem keysFree_applyEvents (es : List Event) (s : BridgeState) (k : Int) (j : Nat)
    (hjk : issuedId j = k) (hj : j < s.count)
    (hfree : keysFree k s.registry)
    (hb : s.count + countRegisters es ≤ 2 ^ 64) :
    keysFree k (applyEvents es s).registry ∧
      (applyEvents es s).count = s.count + countRegisters es := by
  induction es generalizing s with
  | nil => exact ⟨hfree, by simp [applyEvents, countRegisters]⟩
  | cons e rest ih =>
    rw [applyEvents_cons]
    cases e with
    | register =>
      rw [countRegisters_cons_register] at hb ⊢
      have hfree2 : keysFree k (applyEvent s .register).registry := by
        rw [applyEvent_register_registry]
        intro p hp
        rcases List.mem_cons.mp hp with h1 | h2
        · subst h1
          intro hcon
          have hcon2 : issuedId s.count = k := by simpa using hcon
          have hlt : s.count < 2 ^ 64 := by omega
          exact issuedId_inj_lt j s.count hj hlt (hjk.trans hcon2.symm)
        · exact keysFree_eraseKey s.registry (issuedId s.count) k hfree p h2
      have hcount : (applyEvent s .register).count = s.count + 1 := rfl
      have hres := ih (applyEvent s .register) (by omega) hfree2 (by rw [hcount]; omega)
      exact ⟨hres.1, by rw [hres.2, hcount]; omega⟩
    | storeSuccessEv opId r =>
      have hcr : countRegisters (Event.storeSuccessEv opId r :: rest) = countRegisters rest := rfl
      rw [hcr] at hb ⊢
      have hfree2 : keysFree k (applyEvent s (.storeSuccessEv opId r)).registry := by
        show keysFree k (mapMutate opId
          (fun op => { op with status := .success, result := some r }) s.registry)
        exact keysFree_mapMutate s.registry opId k _ hfree
      have hcount : (applyEvent s (.storeSuccessEv opId r)).count = s.count := rfl
      have hres := ih _ (by rw [hcount]; omega) hfree2 (by rw [hcount]; omega)
      exact ⟨hres.1, by rw [hres.2, hcount]⟩
    | storeErrorEv opId msg =>
      have hcr : countRegisters (Event.storeErrorEv opId msg :: rest) = countRegisters rest := rfl
      rw [hcr] at hb ⊢
      have hfree2 : keysFree k (applyEvent s (.storeErrorEv opId msg)).registry := by
        show keysFree k (mapMutate opId (fun op => { op with status := .error msg }) s.registry)
        exact keysFree_mapMutate s.registry opId k _ hfree
      have hcount : (applyEvent s (.storeErrorEv opId msg)).count = s.count := rfl
      have hres := ih _ (by rw [hcount]; omega) hfree2 (by rw [hcount]; omega)
      exact ⟨hres.1, by rw [hres.2, hcount]⟩
    | storeCancelledEv opId =>
      have hcr : countRegisters (Event.storeCancelledEv opId :: rest) = countRegisters rest := rfl
      rw [hcr] at hb ⊢
      have hfree2 : keysFree k (applyEvent s (.storeCancelledEv opId)).registry := by
        show keysFree k (mapMutate opId (fun op => { op with status := .cancelled }) s.registry)
        exact keysFree_mapMutate s.registry opId k _ hfree
      have hcount : (applyEvent s (.storeCancelledEv opId)).count = s.count := rfl
      have hres := ih _ (by rw [hcount]; omega) hfree2 (by rw [hcount]; omega)
      exact ⟨hres.1, by rw [hres.2, hcount]⟩
    | cancelEv opId =>
      have hcr : countRegisters (Event.cancelEv opId :: rest) = countRegisters rest := rfl
      rw [hcr] at hb ⊢
      have hfree2 : keysFree k (applyEvent s (.cancelEv opId)).registry := by
        show keysFree k (cancel_async_operation s opId).2.registry
        rcases cancel_state_cases s opId with h | h <;> rw [h]
        · exact hfree
        · exact keysFree_mapMutate s.registry opId k _ hfree
      have hcount : (applyEvent s (.cancelEv opId)).count = s.count := cancel_count_eq s opId
      have hres := ih _ (by rw [hcount]; omega) hfree2 (by rw [hcount]; omega)
      exact ⟨hres.1, by rw [hres.2, hcount]⟩
    | pollEv opId =>
      have hcr : countRegisters (Event.pollEv opId :: rest) = countRegisters rest := rfl
      rw [hcr] at hb ⊢
      have hfree2 : keysFree k (applyEvent s (.pollEv opId)).registry := by
        show keysFree k (poll_async_result s opId).2.registry
        rcases poll_state_cases s opId with h | h <;> rw [h]
        · exact hfree
        · exact keysFree_eraseKey s.registry opId k hfree
      have hcount : (applyEvent s (.pollEv opId)).count = s.count := poll_count_eq s opId
      have hres := ih _ (by rw [hcount]; omega) hfree2 (by rw [hcount]; omega)
      exact ⟨hres.1, by rw [hres.2, hcount]⟩

/-! ## Worker error messages are always classified -/

theorem collectBatch_error_cases (rs : List EmbeddingResult) (m : String)
    (h : collectBatch rs = .error m) :
    m = "EMBEDDING_FAILED: Generated embedding vector is empty" ∨
    m = "MULTI_VECTOR: Multi-vector embeddings are not supported" := by
  induction rs with
  | nil => exact absurd h (by simp [collectBatch])
  | cons r rest ih =>
    cases r with
    | denseVector v =>
      rw [collectBatch] at h
      split_ifs at h with hv
      · injection h with h2
        exact Or.inl h2.symm
      · rcases hc : collectBatch rest with m2 | tail
        · rw [hc] at h
          injection h with h2
          exact h2 ▸ ih (by rw [hc, h2])
        · rw [hc] at h
          cases h
    | multiVector mv =>
      rw [collectBatch] at h
      injection h with h2
      exact Or.inr h2.symm

theorem runWorker_storeError_classified (c : WorkerCall) (m : String)
    (h : (runWorker c).2 = .storeError m) :
    ∃ cl, classOfMsg m = some cl := by
  cases c with
  | loadModel mid tokA tokB engine =>
    cases engine with
    | ok e =>
      simp only [runWorker, loadModelWorker] at h
      split_ifs at h
    | error e =>
      simp only [runWorker, loadModelWorker] at h
      split_ifs at h with h1 h2 h404
      · injection h with h3
        subst h3
        exact ⟨_, rfl⟩
      · injection h with h3
        subst h3
        exact ⟨_, rfl⟩
  | embedText tokA tokB engine =>
    cases engine with
    | error e =>
      simp only [runWorker, embedTextWorker] at h
      split_ifs at h
      injection h with h3
      subst h3
      exact ⟨_, rfl⟩
    | ok lst =>
      cases lst with
      | nil =>
        simp only [runWorker, embedTextWorker] at h
        split_ifs at h
        injection h with h3
        subst h3
        exact ⟨_, rfl⟩
      | cons d rest =>
        obtain ⟨emb, tx, md⟩ := d
        cases emb with
        | denseVector v =>
          simp only [runWorker, embedTextWorker] at h
          split_ifs at h
          injection h with h3
          subst h3
          exact ⟨_, rfl⟩
        | multiVector mv =>
          simp only [runWorker, embedTextWorker] at h
          split_ifs at h
          injection h with h3
          subst h3
          exact ⟨_, rfl⟩
  | embedBatch n tokA tokB engine =>
    cases engine with
    | error e =>
      simp only [runWorker, embedBatchWorker] at h
      split_ifs at h
      injection h with h3
      subst h3
      exact ⟨_, rfl⟩
    | ok rs =>
      rcases hc : collectBatch rs with m2 | tail
      · simp only [runWorker, embedBatchWorker, hc] at h
        split_ifs at h
        injection h with h3
        subst h3
        rcases collectBatch_error_cases rs m2 hc with h4 | h4 <;> rw [h4]
        · exact ⟨_, rfl⟩
        · exact ⟨_, rfl⟩
      · simp only [runWorker, embedBatchWorker, hc] at h
        split_ifs at h
  | embedFile fp tokA tokB engine =>
    cases engine with
    | ok o =>
      cases o with
      | some items =>
        simp only [runWorker, embedFileWorker] at h
        split_ifs at h
      | none =>
        simp only [runWorker, embedFileWorker] at h
        split_ifs at h
        injection h with h3
        subst h3
        exact ⟨_, rfl⟩
    | error e =>
      simp only [runWorker, embedFileWorker] at h
      split_ifs at h with h1 h2 ha hb hc2
      · injection h with h3
        subst h3
        exact ⟨_, rfl⟩
      · injection h with h3
        subst h3
        exact ⟨_, rfl⟩
      · injection h with h3
        subst h3
        exact ⟨_, rfl⟩
      · injection h with h3
        subst h3
        exact ⟨_, rfl⟩
  | embedDirectory dp tokA tokB engine =>
    cases engine with
    | ok o =>
      cases o with
      | some items =>
        simp only [runWorker, embedDirectoryWorker] at h
        split_ifs at h
      | none =>
        simp only [runWorker, embedDirectoryWorker] at h
        split_ifs at h
        injection h with h3
        subst h3
        exact ⟨_, rfl⟩
    | error e =>
      simp only [runWorker, embedDirectoryWorker] at h
      split_ifs at h with h1 h2 ha hb
      · injection h with h3
        subst h3
        exact ⟨_, rfl⟩
      · injection h with h3
        subst h3
        exact ⟨_, rfl⟩
      · injection h with h3
        subst h3
        exact ⟨_, rfl⟩

/-! ## Outcome lemmas for the claim theorems -/

theorem classOfMsg_head (m : String) (cl : Classification) (h : classOfMsg m = some cl) :
    m.data.head? = some ('M') ∨ m.data.head? = some ('F') ∨
    m.data.head? = some ('U') ∨ m.data.head? = some ('E') := by
  unfold classOfMsg at h
  split_ifs at h with h1 h2 h3 h4 h5 h6
  · obtain ⟨t, ht⟩ := List.isPrefixOf_iff_prefix.mp h1
    rw [← ht]; left; rfl
  · obtain ⟨t, ht⟩ := List.isPrefixOf_iff_prefix.mp h2
    rw [← ht]; right; left; rfl
  · obtain ⟨t, ht⟩ := List.isPrefixOf_iff_prefix.mp h3
    rw [← ht]; right; right; left; rfl
  · obtain ⟨t, ht⟩ := List.isPrefixOf_iff_prefix.mp h4
    rw [← ht]; left; rfl
  · obtain ⟨t, ht⟩ := List.isPrefixOf_iff_prefix.mp h5
    rw [← ht]; right; left; rfl
  · obtain ⟨t, ht⟩ := List.isPrefixOf_iff_prefix.mp h6
    rw [← ht]; right; right; right; rfl

theorem invalidIdMsg_head (opId : Int) :
    (invalidIdMsg opId).data.head? = some ('I') := rfl

theorem classified_ne_invalidIdMsg (m : String) (cl : Classification)
    (h : classOfMsg m = some cl) (opId : Int) : m ≠ invalidIdMsg opId := by
  intro he
  have h1 := classOfMsg_head m cl h
  rw [he, invalidIdMsg_head] at h1
  rcases h1 with h1 | h1 | h1 | h1 <;> exact absurd h1 (by decide)

theorem poll_none_result (s : BridgeState) (opId : Int)
    (h : mapLookup s.registry opId = none) :
    poll_async_result s opId = (invalidIdResult opId, s) := by
  unfold poll_async_result
  rw [h]
  rfl

theorem poll_error_result (s : BridgeState) (opId : Int) (op : AsyncOperation) (msg : String)
    (hlk : mapLookup s.registry opId = some op) (hst : op.status = .error msg) :
    (poll_async_result s opId).1 =
      { status := -1, resultType := 0, data := none, errorMessage := cStringNew msg } ∧
    (poll_async_result s opId).2 = { s with registry := eraseKey opId s.registry } := by
  obtain ⟨st, res, tok⟩ := op
  have hst2 : st = .error msg := hst
  subst hst2
  unfold poll_async_result
  rw [hlk]
  exact ⟨rfl, rfl⟩

theorem poll_terminal_result (s : BridgeState) (opId : Int) (op : AsyncOperation)
    (hlk : mapLookup s.registry opId = some op) (hterm : op.status ≠ .inProgress) :
    (poll_async_result s opId).1.status ≠ 0 ∧
    (poll_async_result s opId).2 = { s with registry := eraseKey opId s.registry } := by
  obtain ⟨st, res, tok⟩ := op
  have hterm2 : st ≠ .inProgress := hterm
  unfold poll_async_result
  rw [hlk]
  cases st with
  | inProgress => exact absurd rfl hterm2
  | error msg => exact ⟨by simp, rfl⟩
  | cancelled => exact ⟨by simp, rfl⟩
  | success =>
    cases res with
    | none => exact ⟨by simp, rfl⟩
    | some r =>
      cases r with
      | singleEmbedding v => exact ⟨by simp, rfl⟩
      | batchEmbedding es => exact ⟨by simp, rfl⟩
      | modelLoad e => exact ⟨by simp, rfl⟩
      | fileEmbedding items =>
        rcases hc : convert_file_result_to_c items with e | cItems
        · simp [hc]
        · simp [hc]

theorem collectBatch_ok_nonempty (rs : List EmbeddingResult) (vs : List (List Float))
    (h : collectBatch rs = .ok vs) : ∀ v ∈ vs, v.isEmpty = false := by
  induction rs generalizing vs with
  | nil =>
    rw [collectBatch] at h
    injection h with h2
    subst h2
    intro v hv
    cases hv
  | cons r rest ih =>
    cases r with
    | denseVector w =>
      rw [collectBatch] at h
      split_ifs at h with hw
      rcases hc : collectBatch rest with m2 | tail
      · simp [hc] at h
      · simp only [hc] at h
        injection h with h2
        subst h2
        intro v hv
        rcases List.mem_cons.mp hv with h3 | h3
        · subst h3; simpa using hw
        · exact ih tail (by rw [hc]) v h3
    | multiVector mv =>
      rw [collectBatch] at h
      exact absurd h (by simp)

theorem collectBatch_multi_first (pre : List EmbeddingResult) (mv : List (List Float))
    (post : List EmbeddingResult)
    (hpre : ∀ r ∈ pre, ∃ w, r = EmbeddingResult.denseVector w ∧ w.isEmpty = false) :
    collectBatch (pre ++ EmbeddingResult.multiVector mv :: post) =
      .error ("MULTI_VECTOR: Multi-vector embeddings are not supported") := by
  induction pre with
  | nil =>
    rw [List.nil_append, collectBatch]
  | cons r rest ih =>
    obtain ⟨w, hw1, hw2⟩ := hpre r (List.mem_cons_self _ _)
    subst hw1
    rw [List.cons_append, collectBatch]
    rw [if_neg (by simp [hw2])]
    rw [ih (fun q hq => hpre q (List.mem_cons_of_mem _ hq))]

theorem collectBatch_has_multi_error (rs : List EmbeddingResult)
    (h : ∃ mv, EmbeddingResult.multiVector mv ∈ rs) :
    ∃ m, collectBatch rs = .error m := by
  obtain ⟨mv, hmem⟩ := h
  induction rs with
  | nil => cases hmem
  | cons r rest ih =>
    cases r with
    | denseVector w =>
      rw [collectBatch]
      by_cases hw : w.isEmpty = true
      · rw [if_pos hw]; exact ⟨_, rfl⟩
      · rw [if_neg hw]
        have hmem2 : EmbeddingResult.multiVector mv ∈ rest := by
          rcases List.mem_cons.mp hmem with h1 | h1
          · exact absurd h1 (by simp)
          · exact h1
        obtain ⟨m, hm⟩ := ih hmem2
        rw [hm]
        exact ⟨m, rfl⟩
    | multiVector mv2 =>
      rw [collectBatch]
      exact ⟨_, rfl⟩

theorem convert_file_multi_error (items : List EmbedData)
    (h : ∃ d ∈ items, ∃ mv, d.embedding = EmbeddingResult.multiVector mv) :
    convert_file_result_to_c items =
      .error ("MULTI_VECTOR_NOT_SUPPORTED: Multi-vector embeddings are not supported") := by
  obtain ⟨d, hd, mv, hmv⟩ := h
  induction items with
  | nil => cases hd
  | cons q rest ih =>
    obtain ⟨emb, tx, md⟩ := q
    cases emb with
    | denseVector w =>
      rw [convert_file_result_to_c]
      have hd2 : d ∈ rest := by
        rcases List.mem_cons.mp hd with h1 | h1
        · subst h1
          exact absurd hmv (by simp)
        · exact h1
      rw [ih hd2]
    | multiVector mw =>
      rw [convert_file_result_to_c]

theorem applyEvents_replicate_register_count (n : Nat) (s : BridgeState) :
    (applyEvents (List.replicate n .register) s).count = s.count + n := by
  induction n generalizing s with
  | zero => rfl
  | succ m ih =>
    rw [List.replicate_succ, applyEvents_cons, ih]
    rw [show (applyEvent s Event.register).count = s.count + 1 from rfl]
    omega

/-! ## Claim theorems -/

theorem mapMutate_mapMutate (opId : Int) (f g : AsyncOperation → AsyncOperation)
    (reg : Registry) :
    mapMutate opId f (mapMutate opId g reg) = mapMutate opId (fun op => f (g op)) reg := by
  unfold mapMutate
  rw [List.map_map]
  apply List.map_congr_left
  intro p hp
  by_cases hb : p.1 = opId
  · simp [hb]
  · simp [hb]

/-- C9: as long as the worker has not performed its terminal write (the
record's status is still InProgress), poll returns the Pending outcome and
leaves the entire bridge state — registry contents, the record's status,
result and token, and the id counter — unchanged; repeating the poll any
number of times changes nothing and keeps returning Pending. -/
theorem c9_poll_pending_stable (s : BridgeState) (opId : Int) (op : AsyncOperation)
    (hlk : mapLookup s.registry opId = some op) (hst : op.status = .inProgress) :
    poll_async_result s opId = (pendingPollResult, s) ∧
    ∀ n : Nat, pollRepeat n s opId = s ∧
      (poll_async_result (pollRepeat n s opId) opId).1 = pendingPollResult := by
  have h1 : poll_async_result s opId = (pendingPollResult, s) := by
    obtain ⟨st, res, tok⟩ := op
    have hst2 : st = .inProgress := hst
    subst hst2
    unfold poll_async_result
    rw [hlk]
    rfl
  refine ⟨h1, ?_⟩
  intro n
  induction n with
  | zero =>
    refine ⟨rfl, ?_⟩
    show (poll_async_result s opId).1 = pendingPollResult
    rw [h1]
  | succ m ih =>
    have h2 : (poll_async_result s opId).2 = s := by rw [h1]
    have hstep : pollRepeat (m + 1) s opId = pollRepeat m s opId := by
      show pollRepeat m (poll_async_result s opId).2 opId = pollRepeat m s opId
      rw [h2]
    rw [hstep]
    exact ih

/-- Witness for C9 at a concrete pending record. -/
theorem c9_poll_pending_stable_witness :
    poll_async_result
        { count := 1,
          registry := [(1, { status := .inProgress, result := none, cancelToken := false })],
          lastError := none } 1 =
      (pendingPollResult,
        { count := 1,
          registry := [(1, { status := .inProgress, result := none, cancelToken := false })],
          lastError := none }) ∧
    pollRepeat 3
        { count := 1,
          registry := [(1, { status := .inProgress, result := none, cancelToken := false })],
          lastError := none } 1 =
      { count := 1,
        registry := [(1, { status := .inProgress, result := none, cancelToken := false })],
        lastError := none } :=
  ⟨(c9_poll_pending_stable
      { count := 1,
        registry := [(1, { status := .inProgress, result := none, cancelToken := false })],
        lastError := none } 1
      { status := .inProgress, result := none, cancelToken := false } rfl rfl).1,
   ((c9_poll_pending_stable
      { count := 1,
        registry := [(1, { status := .inProgress, result := none, cancelToken := false })],
        lastError := none } 1
      { status := .inProgress, result := none, cancelToken := false } rfl rfl).2 3).1⟩

/-- C2: polling an id with no registry record (an unknown id or one already
consumed by a terminal poll) yields the InvalidId outcome — status -1, result
type 0, null data, the "Invalid operation ID" message, which CString::new
always allocates — and the state is untouched.  The outcome is distinct from
every operation-level failure outcome: any message a worker can store carries
a classification tag prefix, so a poll on a Failed record returns the same
-1 status but never the InvalidId result. -/
theorem c2_unknown_id_invalid_outcome (s : BridgeState) (opId : Int)
    (h : mapLookup s.registry opId = none) :
    poll_async_result s opId = (invalidIdResult opId, s) ∧
    (invalidIdResult opId).errorMessage = some (invalidIdMsg opId) ∧
    (∀ c : WorkerCall, ∀ m : String, (runWorker c).2 = .storeError m →
      ∀ t : BridgeState, ∀ op : AsyncOperation,
        mapLookup t.registry opId = some op → op.status = .error m →
        (poll_async_result t opId).1.status = -1 ∧
        (poll_async_result t opId).1 ≠ invalidIdResult opId) := by
  refine ⟨poll_none_result s opId h, ?_, ?_⟩
  · show cStringNew (invalidIdMsg opId) = some (invalidIdMsg opId)
    exact cStringNew_invalidIdMsg opId
  · intro c m hm t op hlk hst
    obtain ⟨hres1, _⟩ := poll_error_result t opId op m hlk hst
    obtain ⟨cl, hcl⟩ := runWorker_storeError_classified c m hm
    constructor
    · rw [hres1]
    · rw [hres1]
      intro heq
      have hmsg := congrArg CAsyncPollResult.errorMessage heq
      simp only [invalidIdResult] at hmsg
      rw [cStringNew_invalidIdMsg] at hmsg
      unfold cStringNew at hmsg
      by_cases hnul : m.data.contains (Char.ofNat 0) = true
      · rw [if_pos hnul] at hmsg
        cases hmsg
      · rw [if_neg hnul] at hmsg
        injection hmsg with hmsg2
        exact classified_ne_invalidIdMsg m cl hcl opId hmsg2

/-- Witness for C2: polling id 7 on a state whose registry holds only id 1. -/
theorem c2_unknown_id_invalid_outcome_witness :
    poll_async_result
        { count := 1,
          registry := [(1, { status := .inProgress, result := none, cancelToken := false })],
          lastError := none } 7 =
      (invalidIdResult 7,
        { count := 1,
          registry := [(1, { status := .inProgress, result := none, cancelToken := false })],
          lastError := none }) ∧
    (poll_async_result
        { count := 2,
          registry := [(2,
            { status :=
                AsyncOperationStatus.error ("EMBEDDING_FAILED: Text embedding generation failed: boom"),
              result := none, cancelToken := false })],
          lastError := none } 2).1 ≠ invalidIdResult 2 := by
  constructor
  · exact (c2_unknown_id_invalid_outcome
      { count := 1,
        registry := [(1, { status := .inProgress, result := none, cancelToken := false })],
        lastError := none } 7 rfl).1
  · exact ((c2_unknown_id_invalid_outcome initialState 2 rfl).2.2
      (.embedText false false (.error "boom"))
      ("EMBEDDING_FAILED: Text embedding generation failed: boom") rfl
      { count := 2,
        registry := [(2,
          { status :=
              AsyncOperationStatus.error ("EMBEDDING_FAILED: Text embedding generation failed: boom"),
            result := none, cancelToken := false })],
        lastError := none }
      { status :=
          AsyncOperationStatus.error ("EMBEDDING_FAILED: Text embedding generation failed: boom"),
        result := none, cancelToken := false }
      rfl rfl).2

theorem cancel_found (s : BridgeState) (opId : Int) (op : AsyncOperation)
    (hlk : mapLookup s.registry opId = some op) :
    cancel_async_operation s opId =
      ((0 : Int), { s with registry := mapMutate opId (fun q => { q with cancelToken := true }) s.registry }) := by
  unfold cancel_async_operation
  rw [hlk]

theorem cancel_not_found (s : BridgeState) (opId : Int)
    (h : mapLookup s.registry opId = none) :
    cancel_async_operation s opId =
      ((-1 : Int), { s with lastError := some ("Invalid operation ID: " ++ toString opId) }) := by
  unfold cancel_async_operation
  rw [h]

theorem mapMutate_setToken_idem (opId : Int) (reg : Registry) :
    mapMutate opId (fun q => { q with cancelToken := true })
      (mapMutate opId (fun q => { q with cancelToken := true }) reg) =
    mapMutate opId (fun q => { q with cancelToken := true }) reg := by
  rw [mapMutate_mapMutate]

/-- C6: when a record with the given id exists, cancel returns 0 and only
sets that record's token flag — it removes nothing, changes no record's
status or result, keeps every other record identical and leaves the id
counter alone — and cancelling again has no further effect; when no record
exists, cancel returns -1 and leaves registry and counter untouched. -/
theorem c6_cancel_sets_flag_frame_idempotent (s : BridgeState) (opId : Int) :
    (∀ op, mapLookup s.registry opId = some op →
      (cancel_async_operation s opId).1 = 0 ∧
      mapLookup (cancel_async_operation s opId).2.registry opId =
        some { op with cancelToken := true } ∧
      (∀ k, k ≠ opId →
        mapLookup (cancel_async_operation s opId).2.registry k = mapLookup s.registry k) ∧
      (cancel_async_operation s opId).2.count = s.count ∧
      cancel_async_operation (cancel_async_operation s opId).2 opId =
        (0, (cancel_async_operation s opId).2)) ∧
    (mapLookup s.registry opId = none →
      (cancel_async_operation s opId).1 = -1 ∧
      (cancel_async_operation s opId).2.registry = s.registry ∧
      (cancel_async_operation s opId).2.count = s.count) := by
  constructor
  · intro op hlk
    have hc := cancel_found s opId op hlk
    have hlk2 : mapLookup
        (mapMutate opId (fun q => { q with cancelToken := true }) s.registry) opId =
        some { op with cancelToken := true } := by
      rw [mapLookup_mapMutate, hlk]
      simp
    rw [hc]
    refine ⟨rfl, hlk2, ?_, rfl, ?_⟩
    · intro k hk
      show mapLookup
        (mapMutate opId (fun q => { q with cancelToken := true }) s.registry) k =
        mapLookup s.registry k
      rw [mapLookup_mapMutate]
      rcases mapLookup s.registry k with _ | q
      · rfl
      · simp [hk]
    · show cancel_async_operation
        { s with registry := mapMutate opId (fun q => { q with cancelToken := true }) s.registry } opId =
        ((0 : Int), { s with registry := mapMutate opId (fun q => { q with cancelToken := true }) s.registry })
      rw [cancel_found _ opId _ hlk2]
      have h3 : mapMutate opId (fun q => { q with cancelToken := true }) ({ s with registry := mapMutate opId (fun q => { q with cancelToken := true }) s.registry } : BridgeState).registry = mapMutate opId (fun q => { q with cancelToken := true }) s.registry := by
        show mapMutate opId (fun q => { q with cancelToken := true }) (mapMutate opId (fun q => { q with cancelToken := true }) s.registry) = _
        exact mapMutate_setToken_idem opId s.registry
      rw [h3]
  · intro hnone
    rw [cancel_not_found s opId hnone]
    exact ⟨rfl, rfl, rfl⟩


/-- Witness for C6 at a concrete one-record registry and a missing id. -/
theorem c6_cancel_sets_flag_frame_idempotent_witness :
    (cancel_async_operation
        { count := 1,
          registry := [(1, { status := .inProgress, result := none, cancelToken := false })],
          lastError := none } 1).1 = 0 ∧
    mapLookup (cancel_async_operation
        { count := 1,
          registry := [(1, { status := .inProgress, result := none, cancelToken := false })],
          lastError := none } 1).2.registry 1 =
      some { status := .inProgress, result := none, cancelToken := true } ∧
    (cancel_async_operation initialState 5).1 = -1 := by
  refine ⟨?_, ?_, ?_⟩
  · exact ((c6_cancel_sets_flag_frame_idempotent
      { count := 1,
        registry := [(1, { status := .inProgress, result := none, cancelToken := false })],
        lastError := none } 1).1
      { status := .inProgress, result := none, cancelToken := false } rfl).1
  · exact ((c6_cancel_sets_flag_frame_idempotent
      { count := 1,
        registry := [(1, { status := .inProgress, result := none, cancelToken := false })],
        lastError := none } 1).1
      { status := .inProgress, result := none, cancelToken := false } rfl).2.1
  · exact ((c6_cancel_sets_flag_frame_idempotent initialState 5).2 rfl).1

/-- C7: for every operation kind, when the cancellation token is already set
as the worker begins (checkpoint A), the worker performs the Cancelled
terminal write and stops without invoking the Embedding Engine (the Bool
component of `runWorker` records whether the engine was invoked); the
store_cancelled write moves the record to the Cancelled status. -/
theorem c7_checkpointA_cancelled_no_engine_call (c : WorkerCall)
    (h : c.tokenAtStart = true) :
    runWorker c = (false, .storeCancelled) ∧
    (∀ s opId op, mapLookup s.registry opId = some op →
      mapLookup (store_cancelled s opId).registry opId =
        some { op with status := .cancelled }) := by
  constructor
  · cases c with
    | loadModel mid tokA tokB engine =>
      have h2 : tokA = true := h
      simp [runWorker, loadModelWorker, h2]
    | embedText tokA tokB engine =>
      have h2 : tokA = true := h
      simp [runWorker, embedTextWorker, h2]
    | embedBatch n tokA tokB engine =>
      have h2 : tokA = true := h
      simp [runWorker, embedBatchWorker, h2]
    | embedFile fp tokA tokB engine =>
      have h2 : tokA = true := h
      simp [runWorker, embedFileWorker, h2]
    | embedDirectory dp tokA tokB engine =>
      have h2 : tokA = true := h
      simp [runWorker, embedDirectoryWorker, h2]
  · intro s opId op hlk
    show mapLookup
      (mapMutate opId (fun q => { q with status := .cancelled }) s.registry) opId =
      some { op with status := .cancelled }
    rw [mapLookup_mapMutate, hlk]
    simp

/-- Witness for C7: a load-model worker whose token is set at checkpoint A. -/
theorem c7_checkpointA_cancelled_no_engine_call_witness :
    runWorker (.loadModel "m" true false (.error "engine never called")) =
      (false, .storeCancelled) ∧
    mapLookup (store_cancelled
        { count := 1,
          registry := [(1, { status := .inProgress, result := none, cancelToken := true })],
          lastError := none } 1).registry 1 =
      some { status := .cancelled, result := none, cancelToken := true } := by
  constructor
  · exact (c7_checkpointA_cancelled_no_engine_call
      (.loadModel "m" true false (.error "engine never called")) rfl).1
  · exact (c7_checkpointA_cancelled_no_engine_call
      (.loadModel "m" true false (.error "engine never called")) rfl).2
      { count := 1,
        registry := [(1, { status := .inProgress, result := none, cancelToken := true })],
        lastError := none } 1
      { status := .inProgress, result := none, cancelToken := true } rfl

/-- C4: every start call that fails synchronous validation — a null required
argument (model_id, text, texts array, file or directory path, config, or the
embedder handle), an empty batch (count = 0), or an out-of-range dtype code —
returns the -1 failure sentinel, leaves the registry contents and the id
counter exactly as they were, and spawns no worker thread. -/
theorem c4_validation_failure_frame (s : BridgeState) :
    (∀ rev dt, startFrameOk s (start_load_model s .nullPtr rev dt)) ∧
    (∀ mid rev dt, dt ≠ 0 → dt ≠ 1 → dt ≠ -1 →
      startFrameOk s (start_load_model s mid rev dt)) ∧
    (∀ t, startFrameOk s (start_embed_text s none t)) ∧
    (∀ emb, startFrameOk s (start_embed_text s (some emb) .nullPtr)) ∧
    (∀ t, startFrameOk s (start_embed_texts_batch s none t)) ∧
    (∀ emb, startFrameOk s (start_embed_texts_batch s (some emb) none)) ∧
    (∀ emb, startFrameOk s (start_embed_texts_batch s (some emb) (some []))) ∧
    (∀ fp cfg pe, startFrameOk s (start_embed_file s none fp cfg pe)) ∧
    (∀ emb cfg pe, startFrameOk s (start_embed_file s (some emb) .nullPtr cfg pe)) ∧
    (∀ emb fp pe, startFrameOk s (start_embed_file s (some emb) fp none pe)) ∧
    (∀ dp ex cfg pe, startFrameOk s (start_embed_directory s none dp ex cfg pe)) ∧
    (∀ emb ex cfg pe, startFrameOk s (start_embed_directory s (some emb) .nullPtr ex cfg pe)) ∧
    (∀ emb dp ex pe, startFrameOk s (start_embed_directory s (some emb) dp ex none pe)) := by
  refine ⟨?_, ?_, ?_, ?_, ?_, ?_, ?_, ?_, ?_, ?_, ?_, ?_, ?_⟩
  · intro rev dt
    exact ⟨rfl, rfl, rfl, rfl⟩
  · intro mid rev dt h0 h1 hm1
    cases mid with
    | nullPtr => exact ⟨rfl, rfl, rfl, rfl⟩
    | invalidUtf8 => exact ⟨rfl, rfl, rfl, rfl⟩
    | valid midStr =>
      cases rev with
      | invalidUtf8 => exact ⟨rfl, rfl, rfl, rfl⟩
      | nullPtr =>
        show startFrameOk s (startLoadDtype { s with lastError := none } midStr none dt)
        unfold startLoadDtype
        rw [if_neg h0, if_neg h1, if_neg hm1]
        exact ⟨rfl, rfl, rfl, rfl⟩
      | valid r =>
        show startFrameOk s (startLoadDtype { s with lastError := none } midStr (some r) dt)
        unfold startLoadDtype
        rw [if_neg h0, if_neg h1, if_neg hm1]
        exact ⟨rfl, rfl, rfl, rfl⟩
  · intro t
    exact ⟨rfl, rfl, rfl, rfl⟩
  · intro emb
    exact ⟨rfl, rfl, rfl, rfl⟩
  · intro t
    exact ⟨rfl, rfl, rfl, rfl⟩
  · intro emb
    exact ⟨rfl, rfl, rfl, rfl⟩
  · intro emb
    exact ⟨rfl, rfl, rfl, rfl⟩
  · intro fp cfg pe
    exact ⟨rfl, rfl, rfl, rfl⟩
  · intro emb cfg pe
    cases cfg with
    | none => exact ⟨rfl, rfl, rfl, rfl⟩
    | some c => exact ⟨rfl, rfl, rfl, rfl⟩
  · intro emb fp pe
    cases fp with
    | nullPtr => exact ⟨rfl, rfl, rfl, rfl⟩
    | invalidUtf8 => exact ⟨rfl, rfl, rfl, rfl⟩
    | valid fpStr => exact ⟨rfl, rfl, rfl, rfl⟩
  · intro dp ex cfg pe
    exact ⟨rfl, rfl, rfl, rfl⟩
  · intro emb ex cfg pe
    cases cfg with
    | none => exact ⟨rfl, rfl, rfl, rfl⟩
    | some c => exact ⟨rfl, rfl, rfl, rfl⟩
  · intro emb dp ex pe
    cases dp with
    | nullPtr => exact ⟨rfl, rfl, rfl, rfl⟩
    | invalidUtf8 => exact ⟨rfl, rfl, rfl, rfl⟩
    | valid dpStr => exact ⟨rfl, rfl, rfl, rfl⟩

/-- Witness for C4: concrete validation failures — an out-of-range dtype code
(7), an empty batch, and a null file path — at a nonempty registry state. -/
theorem c4_validation_failure_frame_witness :
    startFrameOk
      { count := 1,
        registry := [(1, { status := .inProgress, result := none, cancelToken := false })],
        lastError := none }
      (start_load_model
        { count := 1,
          registry := [(1, { status := .inProgress, result := none, cancelToken := false })],
          lastError := none } (.valid "m") .nullPtr 7) ∧
    startFrameOk initialState (start_embed_texts_batch initialState (some ⟨3⟩) (some [])) ∧
    startFrameOk initialState
      (start_embed_file initialState (some ⟨3⟩) .nullPtr
        (some { chunkSize := 1000, overlapFraction := 0.1, batchSize := 32, bufferSize := 64 })
        true) := by
  refine ⟨?_, ?_, ?_⟩
  · exact (c4_validation_failure_frame
      { count := 1,
        registry := [(1, { status := .inProgress, result := none, cancelToken := false })],
        lastError := none }).2.1 (.valid "m") .nullPtr 7
      (by decide) (by decide) (by decide)
  · exact (c4_validation_failure_frame initialState).2.2.2.2.2.2.1 ⟨3⟩
  · exact (c4_validation_failure_frame initialState).2.2.2.2.2.2.2.2.1 ⟨3⟩
      (some { chunkSize := 1000, overlapFraction := 0.1, batchSize := 32, bufferSize := 64 })
      true

/-- register_operation returns the id issued at the current counter
position. -/
theorem register_operation_ret (s : BridgeState) :
    (register_operation s).1.1 = issuedId s.count := by
  simp [register_operation]

/-- C5 counterexample: AtomicI64::fetch_add wraps on overflow, so under
"any number of concurrent register calls" the issued ids are neither always
positive nor strictly increasing nor unique: the id issued by the 2^63-th
register call is negative (-2^63), and the 2^64-th call after the first one
issues the initial id 1 again; register_operation at a state whose counter
has performed 2^63 - 1 calls returns that negative id. -/
theorem c5_counterexample_id_wraparound :
    issuedId (2 ^ 63 - 1) < 0 ∧
    issuedId (2 ^ 64) = issuedId 0 ∧
    (register_operation
      { count := 2 ^ 63 - 1, registry := [], lastError := none }).1.1 < 0 := by
  refine ⟨by decide, by decide, by decide⟩

/-- C5 amended: as long as the i64 counter has not reached its wrap-around
point — that is, at every counter position k < 2^63 - 1, covering the first
2^63 - 1 register calls of the process from the very first one — the id
issued by register_operation is positive, and ids at earlier positions are
strictly smaller, hence no id is issued twice; the fetch_add is atomic, so
concurrent register calls serialise and the k-th completed call returns
issuedId k, which is exactly what register_operation returns at counter
position k.  (Beyond that point the counter wraps: see the counterexample.) -/
theorem c5_ids_positive_increasing_before_wrap (s : BridgeState) (j k : Nat)
    (hk : k < 2 ^ 63 - 1) :
    (register_operation s).1.1 = issuedId s.count ∧
    0 < issuedId k ∧ (j < k → issuedId j < issuedId k) := by
  have hpn : (2 : Nat) ^ 63 - 1 = 9223372036854775807 := by norm_num
  have hpi : (2 : Int) ^ 63 = 9223372036854775808 := by norm_num
  rw [hpn] at hk
  have hk1 : issuedId k = (k : Int) + 1 := issuedId_small k (by rw [hpi]; omega)
  refine ⟨register_operation_ret s, ?_, ?_⟩
  · rw [hk1]
    omega
  · intro hjk
    have hj1 : issuedId j = (j : Int) + 1 := issuedId_small j (by rw [hpi]; omega)
    rw [hk1, hj1]
    omega

/-- Witness for C5: the very first register call issues the positive id 1,
and the first two register calls issue 1 then 2 in increasing order. -/
theorem c5_ids_positive_increasing_before_wrap_witness :
    ((register_operation initialState).1.1 = issuedId 0 ∧
      0 < issuedId 0 ∧ (1 < 0 → issuedId 1 < issuedId 0)) ∧
    ((register_operation initialState).1.1 = issuedId 0 ∧
      0 < issuedId 1 ∧ (0 < 1 → issuedId 0 < issuedId 1)) :=
  ⟨c5_ids_positive_increasing_before_wrap initialState 1 0 (by norm_num),
   c5_ids_positive_increasing_before_wrap initialState 0 1 (by norm_num)⟩

theorem collectBatch_empty_first (pre : List EmbeddingResult)
    (post : List EmbeddingResult)
    (hpre : ∀ r ∈ pre, ∃ w, r = EmbeddingResult.denseVector w ∧ w.isEmpty = false) :
    collectBatch (pre ++ EmbeddingResult.denseVector [] :: post) =
      .error ("EMBEDDING_FAILED: Generated embedding vector is empty") := by
  induction pre with
  | nil =>
    rw [List.nil_append, collectBatch]
    rfl
  | cons r rest ih =>
    obtain ⟨w, hw1, hw2⟩ := hpre r (List.mem_cons_self _ _)
    subst hw1
    rw [List.cons_append, collectBatch]
    rw [if_neg (by simp [hw2])]
    rw [ih (fun q hq => hpre q (List.mem_cons_of_mem _ hq))]

/-- C10: a single-text or batch-text operation that reaches Succeeded never
carries an empty vector: every vector in a stored success payload is
non-empty, because the worker stores the EMBEDDING_FAILED (generic-failure)
terminal error instead of success whenever the engine returns an empty dense
vector — for the single text (first element) and for a batch whose earlier
elements were valid. -/
theorem c10_success_vectors_nonempty :
    (∀ tokA tokB engine v,
      (runWorker (.embedText tokA tokB engine)).2 = .storeSuccess (.singleEmbedding v) →
      v.isEmpty = false) ∧
    (∀ n tokA tokB engine vs,
      (runWorker (.embedBatch n tokA tokB engine)).2 = .storeSuccess (.batchEmbedding vs) →
      ∀ v ∈ vs, v.isEmpty = false) ∧
    (∀ tx md rest,
      (runWorker (.embedText false false
          (.ok ({ embedding := EmbeddingResult.denseVector [], text := tx,
                  metadata := md } :: rest)))).2 =
        .storeError ("EMBEDDING_FAILED: Generated embedding vector is empty")) ∧
    (∀ n pre post,
      (∀ r ∈ pre, ∃ w, r = EmbeddingResult.denseVector w ∧ w.isEmpty = false) →
      (runWorker (.embedBatch n false false
          (.ok (pre ++ EmbeddingResult.denseVector [] :: post)))).2 =
        .storeError ("EMBEDDING_FAILED: Generated embedding vector is empty")) ∧
    classOfMsg ("EMBEDDING_FAILED: Generated embedding vector is empty") =
      some .genericFailure := by
  refine ⟨?_, ?_, ?_, ?_, rfl⟩
  · intro tokA tokB engine v h
    cases engine with
    | error e =>
      simp only [runWorker, embedTextWorker] at h
      split_ifs at h
    | ok lst =>
      cases lst with
      | nil =>
        simp only [runWorker, embedTextWorker] at h
        split_ifs at h
      | cons d rest =>
        obtain ⟨emb, tx, md⟩ := d
        cases emb with
        | multiVector mv =>
          simp only [runWorker, embedTextWorker] at h
          split_ifs at h
        | denseVector w =>
          simp only [runWorker, embedTextWorker] at h
          split_ifs at h with h1 h2 hw
          injection h with h2b
          injection h2b with h3
          subst h3
          simpa using hw
  · intro n tokA tokB engine vs h
    cases engine with
    | error e =>
      simp only [runWorker, embedBatchWorker] at h
      split_ifs at h
    | ok rs =>
      rcases hc : collectBatch rs with m2 | tail
      · simp only [runWorker, embedBatchWorker, hc] at h
        split_ifs at h
      · simp only [runWorker, embedBatchWorker, hc] at h
        split_ifs at h
        injection h with h2
        injection h2 with h3
        rw [← h3]
        exact collectBatch_ok_nonempty rs tail hc
  · intro tx md rest
    rfl
  · intro n pre post hpre
    have hcb := collectBatch_empty_first pre post hpre
    simp only [runWorker, embedBatchWorker, hcb]
    rfl

/-- Witness for C10: a successful single embedding of [1.0] is non-empty, and
a batch whose second element is the empty dense vector fails. -/
theorem c10_success_vectors_nonempty_witness :
    ([(1.0 : Float)] : List Float).isEmpty = false ∧
    (runWorker (.embedBatch 2 false false
        (.ok [EmbeddingResult.denseVector [1.0], EmbeddingResult.denseVector []]))).2 =
      .storeError ("EMBEDDING_FAILED: Generated embedding vector is empty") := by
  constructor
  · exact c10_success_vectors_nonempty.1 false false
      (.ok [{ embedding := EmbeddingResult.denseVector [1.0], text := none,
              metadata := none }]) [1.0] rfl
  · exact c10_success_vectors_nonempty.2.2.2.1 2 [EmbeddingResult.denseVector [1.0]] []
      (fun r hr => ⟨[1.0], List.mem_singleton.mp hr, rfl⟩)


/-- C3 (counterexample): the spec claims one uniform classification rule for
every operation kind, under which engine text containing "permission" is
classified read-failure.  The load-model worker has no permission branch: on
engine error "permission denied" it stores a generic EMBEDDING_FAILED message,
whose classification is generic-failure, not the read-failure the spec's
uniform rule assigns. -/
theorem c3_counterexample_load_model_permission :
    (runWorker (.loadModel ("m") false false (.error ("permission denied")))).2 =
      .storeError ("EMBEDDING_FAILED: Failed to load model " ++ quoteChar ++ "m" ++
        quoteChar ++ ": " ++ "permission denied") ∧
    classOfMsg ("EMBEDDING_FAILED: Failed to load model " ++ quoteChar ++ "m" ++
        quoteChar ++ ": " ++ "permission denied") = some Classification.genericFailure ∧
    specClassify ("permission denied") = Classification.readFailure ∧
    some (specClassify ("permission denied")) ≠
      classOfMsg ("EMBEDDING_FAILED: Failed to load model " ++ quoteChar ++ "m" ++
        quoteChar ++ ": " ++ "permission denied") := by
  refine ⟨?_, ?_, ?_, ?_⟩
  · rfl
  · rfl
  · rfl
  · decide

/-- C3 (amended): classification of a failed engine call is per-kind, not
uniform.  With both token checkpoints clear, each kind's worker on engine
error `e` stores a message whose tag encodes that kind's own classification
rule: the load-model rule (404 only), plain generic-failure for single-text
and batch, the file rule, and the directory rule. -/
theorem c3_per_kind_classification (mid e fp dp : String) (n : Nat) :
    (∃ m, (runWorker (.loadModel mid false false (.error e))).2 = .storeError m ∧
      classOfMsg m = some (loadModelFailureClass e)) ∧
    (∃ m, (runWorker (.embedText false false (.error e))).2 = .storeError m ∧
      classOfMsg m = some Classification.genericFailure) ∧
    (∃ m, (runWorker (.embedBatch n false false (.error e))).2 = .storeError m ∧
      classOfMsg m = some Classification.genericFailure) ∧
    (∃ m, (runWorker (.embedFile fp false false (.error e))).2 = .storeError m ∧
      classOfMsg m = some (fileFailureClass e)) ∧
    (∃ m, (runWorker (.embedDirectory dp false false (.error e))).2 = .storeError m ∧
      classOfMsg m = some (directoryFailureClass e)) := by
  refine ⟨?_, ⟨_, rfl, rfl⟩, ⟨_, rfl, rfl⟩, ?_, ?_⟩
  · cases h4 : strContainsSub (strToLower e) ("404") with
    | true =>
      refine ⟨"MODEL_NOT_FOUND: " ++ mid, ?_, ?_⟩
      · simp only [runWorker, loadModelWorker, h4]
        rfl
      · simp only [loadModelFailureClass, h4]
        rfl
    | false =>
      refine ⟨"EMBEDDING_FAILED: Failed to load model " ++ quoteChar ++ mid ++ quoteChar ++
          ": " ++ e, ?_, ?_⟩
      · simp only [runWorker, loadModelWorker, h4]
        rfl
      · simp only [loadModelFailureClass, h4]
        rfl
  · cases hnf : (strContainsSub (strToLower e) ("not found") ||
        strContainsSub (strToLower e) ("no such file")) with
    | true =>
      refine ⟨"FILE_NOT_FOUND: " ++ fp, ?_, ?_⟩
      · simp only [runWorker, embedFileWorker, hnf]
        rfl
      · simp only [fileFailureClass, hnf]
        rfl
    | false =>
      cases huf : (strContainsSub (strToLower e) ("unsupported") ||
          strContainsSub (strToLower e) ("format")) with
      | true =>
        refine ⟨"UNSUPPORTED_FORMAT: " ++ fp, ?_, ?_⟩
        · simp only [runWorker, embedFileWorker, hnf, huf]
          rfl
        · simp only [fileFailureClass, hnf, huf]
          rfl
      | false =>
        cases hp : (strContainsSub (strToLower e) ("permission") ||
            strContainsSub (strToLower e) ("access denied")) with
        | true =>
          refine ⟨"FILE_READ_ERROR: " ++ e, ?_, ?_⟩
          · simp only [runWorker, embedFileWorker, hnf, huf, hp]
            rfl
          · simp only [fileFailureClass, hnf, huf, hp]
            rfl
        | false =>
          refine ⟨"EMBEDDING_FAILED: " ++ e, ?_, ?_⟩
          · simp only [runWorker, embedFileWorker, hnf, huf, hp]
            rfl
          · simp only [fileFailureClass, hnf, huf, hp]
            rfl
  · cases hnf : (strContainsSub (strToLower e) ("not found") ||
        strContainsSub (strToLower e) ("no such file")) with
    | true =>
      refine ⟨"FILE_NOT_FOUND: " ++ dp, ?_, ?_⟩
      · simp only [runWorker, embedDirectoryWorker, hnf]
        rfl
      · simp only [directoryFailureClass, hnf]
        rfl
    | false =>
      cases hp : (strContainsSub (strToLower e) ("permission") ||
          strContainsSub (strToLower e) ("access denied")) with
      | true =>
        refine ⟨"FILE_READ_ERROR: " ++ e, ?_, ?_⟩
        · simp only [runWorker, embedDirectoryWorker, hnf, hp]
          rfl
        · simp only [directoryFailureClass, hnf, hp]
          rfl
      | false =>
        refine ⟨"EMBEDDING_FAILED: Directory embedding failed - " ++ e, ?_, ?_⟩
        · simp only [runWorker, embedDirectoryWorker, hnf, hp]
          rfl
        · simp only [directoryFailureClass, hnf, hp]
          rfl


/-- C8 (counterexample): the spec claims a multi-vector engine result is
always an unsupported-input error with no payload.  Two refutations from the
code: the single-text worker only inspects element 0, so an engine result
whose second element is multi-vector is delivered as a success payload; and a
batch whose multi-vector element is preceded by an empty dense vector stores
the generic EMBEDDING_FAILED message, not the unsupported-input class. -/
theorem c8_counterexample_multivector_not_always_error :
    (runWorker (.embedText false false
        (.ok [{ embedding := EmbeddingResult.denseVector [1.0], text := none,
                metadata := none },
              { embedding := EmbeddingResult.multiVector [[2.0]], text := none,
                metadata := none }]))).2 =
      .storeSuccess (.singleEmbedding [1.0]) ∧
    (runWorker (.embedBatch 2 false false
        (.ok [EmbeddingResult.denseVector [], EmbeddingResult.multiVector [[2.0]]]))).2 =
      .storeError ("EMBEDDING_FAILED: Generated embedding vector is empty") ∧
    classOfMsg ("EMBEDDING_FAILED: Generated embedding vector is empty") =
      some Classification.genericFailure ∧
    Classification.genericFailure ≠ Classification.unsupportedInput := by
  exact ⟨rfl, rfl, rfl, by decide⟩

/-- C8 (amended): a multi-vector result is rejected with the unsupported-input
class exactly where the bridge inspects the shape, and then no payload is
delivered: the single-text worker when element 0 is multi-vector; the batch
worker at the first multi-vector element reached by its loop (and a batch
containing any multi-vector element can never store a success); and poll of a
succeeded file operation whose items contain a multi-vector embedding, which
returns status -1 with a null data pointer. -/
theorem c8_multivector_rejected_no_partial_payload :
    (∀ mv tx md rest,
      (runWorker (.embedText false false
          (.ok ({ embedding := EmbeddingResult.multiVector mv, text := tx,
                  metadata := md } :: rest)))).2 =
        .storeError ("MULTI_VECTOR: Multi-vector embeddings are not supported")) ∧
    classOfMsg ("MULTI_VECTOR: Multi-vector embeddings are not supported") =
      some Classification.unsupportedInput ∧
    (∀ n tokA tokB rs mv vs, EmbeddingResult.multiVector mv ∈ rs →
      (runWorker (.embedBatch n tokA tokB (.ok rs))).2 ≠
        .storeSuccess (.batchEmbedding vs)) ∧
    (∀ n pre mv post,
      (∀ r ∈ pre, ∃ w, r = EmbeddingResult.denseVector w ∧ w.isEmpty = false) →
      (runWorker (.embedBatch n false false
          (.ok (pre ++ EmbeddingResult.multiVector mv :: post)))).2 =
        .storeError ("MULTI_VECTOR: Multi-vector embeddings are not supported")) ∧
    classOfMsg ("MULTI_VECTOR_NOT_SUPPORTED: Multi-vector embeddings are not supported") =
      some Classification.unsupportedInput ∧
    (∀ s opId op items,
      mapLookup s.registry opId = some op →
      op.status = .success →
      op.result = some (.fileEmbedding items) →
      (∃ d ∈ items, ∃ mv, d.embedding = EmbeddingResult.multiVector mv) →
      (poll_async_result s opId).1.status = -1 ∧
      (poll_async_result s opId).1.data = none ∧
      (poll_async_result s opId).1.errorMessage =
        cStringNew ("MULTI_VECTOR_NOT_SUPPORTED: Multi-vector embeddings are not supported")) := by
  refine ⟨?_, rfl, ?_, ?_, rfl, ?_⟩
  · intro mv tx md rest
    rfl
  · intro n tokA tokB rs mv vs hmem h
    cases tokA with
    | true =>
      simp only [runWorker, embedBatchWorker] at h
      split_ifs at h
    | false =>
      cases tokB with
      | true =>
        simp only [runWorker, embedBatchWorker] at h
        split_ifs at h
      | false =>
        obtain ⟨m, hm⟩ := collectBatch_has_multi_error rs ⟨mv, hmem⟩
        simp only [runWorker, embedBatchWorker, hm] at h
        split_ifs at h
  · intro n pre mv post hpre
    have hcb := collectBatch_multi_first pre mv post hpre
    simp only [runWorker, embedBatchWorker, hcb]
    rfl
  · intro s opId op items hlk hst hres hmulti
    obtain ⟨st, res, tok⟩ := op
    simp only at hst hres
    subst hst
    subst hres
    have hc := convert_file_multi_error items hmulti
    unfold poll_async_result
    rw [hlk]
    simp [hc]


theorem mapLookup_mem (reg : Registry) (k : Int) (op : AsyncOperation)
    (h : mapLookup reg k = some op) : (k, op) ∈ reg := by
  induction reg with
  | nil => cases h
  | cons p rest ih =>
    obtain ⟨a, b⟩ := p
    rw [mapLookup_cons] at h
    by_cases hk : k = a
    · rw [if_pos hk] at h
      injection h with h2
      subst hk
      subst h2
      exact List.mem_cons_self _ _
    · rw [if_neg hk] at h
      exact List.mem_cons_of_mem _ (ih h)

theorem poll_success_single (s : BridgeState) (opId : Int) (v : List Float) (tok : Bool)
    (hlk : mapLookup s.registry opId =
      some { status := .success, result := some (.singleEmbedding v), cancelToken := tok }) :
    (poll_async_result s opId).1 =
      { status := 1, resultType := 0, data := some (.textEmbedding v),
        errorMessage := none } := by
  unfold poll_async_result
  rw [hlk]

/-- C1 (counterexample): the claim that at most one poll on an id ever
returns a terminal populated outcome holds only within one period of the
`i64` counter.  Register an operation (id 1), store and poll its success —
a terminal populated outcome.  After `2^64 - 1` further register calls the
counter wraps and a new operation is registered under id 1 again; when its
worker stores success, a second poll on id 1 again returns a terminal
populated outcome, with the new payload — not the InvalidId outcome. -/
theorem c1_counterexample_id_reuse_double_delivery :
    c1FirstPoll.1.status = 1 ∧
    c1FirstPoll.1.data = some (.textEmbedding [1.0]) ∧
    c1SecondPoll.1.status = 1 ∧
    c1SecondPoll.1.data = some (.textEmbedding [2.0]) := by
  have ht : c1FirstPoll.2 = { count := 1, registry := [], lastError := none } := rfl
  have hdc : c1Drained.count = 2 ^ 64 := by
    show (applyEvents (List.replicate (2 ^ 64 - 1) .register) c1FirstPoll.2).count = 2 ^ 64
    rw [applyEvents_replicate_register_count, ht]
    norm_num
  have hiss : issuedId (2 ^ 64) = 1 := by decide
  have hrlk : mapLookup c1Reissued.registry 1 = some freshOperation := by
    have h1 : c1Reissued.registry =
        mapInsert (issuedId c1Drained.count) freshOperation c1Drained.registry :=
      applyEvent_register_registry c1Drained
    rw [h1, hdc, hiss]
    simp only [mapInsert]
    rw [mapLookup_cons, if_pos rfl]
  have hclk : mapLookup c1Completed.registry 1 =
      some { status := .success, result := some c1Payload2, cancelToken := false } := by
    have h2 : c1Completed.registry =
        mapMutate 1 (fun op => { op with status := .success, result := some c1Payload2 })
          c1Reissued.registry := rfl
    rw [h2, mapLookup_mapMutate, hrlk]
    rfl
  have hpoll : c1SecondPoll.1 =
      { status := 1, resultType := 0, data := some (.textEmbedding [2.0]),
        errorMessage := none } :=
    poll_success_single c1Completed 1 [2.0] false hclk
  refine ⟨rfl, rfl, ?_, ?_⟩
  · rw [hpoll]
  · rw [hpoll]

/-- C1 (amended): within one period of the `i64` counter the claim holds —
if the registry satisfies its reachability invariant and holds a terminal
record for `opId`, the first poll returns a non-Pending outcome and removes
the record, and after any further events whose register calls keep the
process within `2^64` total registrations, every later poll on `opId`
returns the InvalidId outcome and changes nothing. -/
theorem c1_terminal_poll_consumes_then_invalid (s : BridgeState) (opId : Int)
    (op : AsyncOperation) (es : List Event)
    (hinv : RegInv s)
    (hlk : mapLookup s.registry opId = some op)
    (hterm : op.status ≠ .inProgress)
    (hb : s.count + countRegisters es ≤ 2 ^ 64) :
    (poll_async_result s opId).1.status ≠ 0 ∧
    mapLookup (poll_async_result s opId).2.registry opId = none ∧
    poll_async_result (applyEvents es (poll_async_result s opId).2) opId =
      (invalidIdResult opId, applyEvents es (poll_async_result s opId).2) := by
  obtain ⟨h01, h02⟩ := poll_terminal_result s opId op hlk hterm
  have hcount : (poll_async_result s opId).2.count = s.count := by rw [h02]
  have hnone : mapLookup (poll_async_result s opId).2.registry opId = none := by
    rw [h02]
    exact mapLookup_eraseKey_self s.registry opId hinv.1
  refine ⟨h01, hnone, ?_⟩
  obtain ⟨j, hj, hjk⟩ := hinv.2 (opId, op) (mapLookup_mem s.registry opId op hlk)
  have hfree : keysFree opId (poll_async_result s opId).2.registry :=
    (mapLookup_eq_none_iff _ _).mp hnone
  have hres := keysFree_applyEvents es (poll_async_result s opId).2 opId j hjk
    (by rw [hcount]; exact hj) hfree (by rw [hcount]; exact hb)
  exact poll_none_result _ opId ((mapLookup_eq_none_iff _ _).mpr hres.1)

/-- Witness for the amended C1 theorem: one registered operation whose
success was stored; the terminal poll consumes id 1 and after one further
register call a poll on id 1 is the InvalidId outcome. -/
theorem c1_terminal_poll_consumes_then_invalid_witness :
    (poll_async_result (applyEvents [.register, .storeSuccessEv 1 c1Payload1] initialState)
        1).1.status ≠ 0 ∧
    mapLookup (poll_async_result (applyEvents [.register, .storeSuccessEv 1 c1Payload1]
        initialState) 1).2.registry 1 = none ∧
    poll_async_result (applyEvents [.register]
        (poll_async_result (applyEvents [.register, .storeSuccessEv 1 c1Payload1]
          initialState) 1).2) 1 =
      (invalidIdResult 1,
        applyEvents [.register]
          (poll_async_result (applyEvents [.register, .storeSuccessEv 1 c1Payload1]
            initialState) 1).2) := by
  refine c1_terminal_poll_consumes_then_invalid
    (applyEvents [.register, .storeSuccessEv 1 c1Payload1] initialState) 1
    { status := .success, result := some c1Payload1, cancelToken := false } [.register]
    ⟨?_, ?_⟩ rfl (by decide) (by decide)
  · show (List.map Prod.fst (applyEvents [.register, .storeSuccessEv 1 c1Payload1]
      initialState).registry).Nodup
    decide
  · intro p hp
    rw [show (applyEvents [.register, .storeSuccessEv 1 c1Payload1] initialState).registry =
      [((1 : Int), ⟨.success, some c1Payload1, false⟩)] from rfl] at hp
    rw [List.mem_singleton] at hp
    subst hp
    exact ⟨0, Nat.zero_lt_one, by decide⟩

end EmbedBridge
